import Mathlib

/-!
Verification of the Hantek DSO driver core: wire-protocol codec
(hantekprotocol/bulkStructs.cpp) and USB session layer (usb/usbdevice.cpp),
shallowly embedded over Nat with explicit modular arithmetic for the
byte-level (uint8_t) semantics.
-/

namespace Hantek

/-! ## DataArray (utils/dataarray.h)

The C++ frames derive from DataArray of uint8_t: a fixed-length, zero-filled
byte array.  We model it as a size together with a total byte map; every
store truncates modulo 256, which is exactly the uint8_t conversion the C++
performs on assignment into the array. -/

structure DataArray where
  getSize : Nat
  array : Nat → Nat

/-- Zero-filled construction of a DataArray of uint8_t of the given size. -/
def DataArray.zeroed (n : Nat) : DataArray := ⟨n, fun _ => 0⟩

/-- Store one byte: the array element type uint8_t truncates the value
modulo 256 (the C++ casts, e.g. (uint8_t)(position >> 8), do this). -/
def DataArray.setByte (d : DataArray) (i v : Nat) : DataArray :=
  ⟨d.getSize, fun j => if j = i then v % 256 else d.array j⟩

/-! ## Packed bitfield access

The C++ overlays structs of one-bit and multi-bit fields on single bytes
(FilterBits, Tsr1Bits, Tsr2Bits, GainBits, CTriggerBits, DBufferBits,
ESamplerateBits, ETsrBits).  Following the spec's packed-byte-buffer
contract we use explicit shift-and-mask arithmetic: a field of width w
whose lowest bit sits at bit lo of byte b. -/

/-- Read the bit field of width w at bit offset lo of byte b. -/
def getBits (b lo w : Nat) : Nat := b / 2 ^ lo % 2 ^ w

/-- Overwrite the bit field of width w at bit offset lo of byte b with v
(truncated to w bits, as C bitfield assignment does), leaving the bits
below lo and above lo+w unchanged. -/
def setBits (b lo w v : Nat) : Nat :=
  b % 2 ^ lo + v % 2 ^ w * 2 ^ lo + b / 2 ^ (lo + w) * 2 ^ (lo + w)

/-! ## Bulk command codes (bulkcode.h) -/

def BULK_SETFILTER : Nat := 0x00
def BULK_SETTRIGGERANDSAMPLERATE : Nat := 0x01
def BULK_FORCETRIGGER : Nat := 0x02
def BULK_STARTSAMPLING : Nat := 0x03
def BULK_ENABLETRIGGER : Nat := 0x04
def BULK_GETDATA : Nat := 0x05
def BULK_GETCAPTURESTATE : Nat := 0x06
def BULK_SETGAIN : Nat := 0x07
def BULK_SETLOGICALDATA : Nat := 0x08
def BULK_GETLOGICALDATA : Nat := 0x09
def BULK_BSETCHANNELS : Nat := 0x0b
def BULK_CSETTRIGGERORSAMPLERATE : Nat := 0x0c
def BULK_DSETBUFFER : Nat := 0x0d
def BULK_ESETTRIGGERORSAMPLERATE : Nat := 0x0e
def BULK_FSETBUFFER : Nat := 0x0f

/-! ## BulkSetFilter (bulkStructs.cpp lines 12-64)

Modelled from the spec: definitions.h with the FilterBits overlay is not
among the sources; per the spec the byte at offset 2 packs three one-bit
flags, taken in declaration order from bit 0: channel1 (bit 0),
channel2 (bit 1), trigger (bit 2). -/

namespace BulkSetFilter

def init (d : DataArray) : DataArray :=
  (d.setByte 0 BULK_SETFILTER).setByte 1 0x0f

/-- Default constructor BulkSetFilter(): 8 zeroed bytes, then init. -/
def empty : DataArray := init (DataArray.zeroed 8)

def setChannel (d : DataArray) (channel : Nat) (filtered : Bool) : DataArray :=
  if channel = 0 then d.setByte 2 (setBits (d.array 2) 0 1 (if filtered then 1 else 0))
  else d.setByte 2 (setBits (d.array 2) 1 1 (if filtered then 1 else 0))

def getChannel (d : DataArray) (channel : Nat) : Bool :=
  if channel = 0 then getBits (d.array 2) 0 1 == 1 else getBits (d.array 2) 1 1 == 1

def setTrigger (d : DataArray) (filtered : Bool) : DataArray :=
  d.setByte 2 (setBits (d.array 2) 2 1 (if filtered then 1 else 0))

def getTrigger (d : DataArray) : Bool := getBits (d.array 2) 2 1 == 1

/-- Constructor BulkSetFilter(channel1, channel2, trigger). -/
def build (channel1 channel2 trigger : Bool) : DataArray :=
  setTrigger (setChannel (setChannel empty 0 channel1) 1 channel2) trigger

end BulkSetFilter

/-! ## BulkSetTriggerAndSamplerate (bulkStructs.cpp lines 69-199)

Modelled from the spec: definitions.h is not among the sources; per the
spec, offset 2 (Tsr1Bits) packs triggerSource, recordLength, samplerateId
and a one-bit downsamplingMode, and offset 3 (Tsr2Bits) packs
usedChannels, a one-bit fastRate and triggerSlope.  We model the packing
in declaration order from bit 0 with widths 2/3/2/1 for Tsr1Bits and
2/1/1 for Tsr2Bits. -/

namespace BulkSetTriggerAndSamplerate

def init (d : DataArray) : DataArray := d.setByte 0 BULK_SETTRIGGERANDSAMPLERATE

/-- Default constructor: 12 zeroed bytes, then init. -/
def empty : DataArray := init (DataArray.zeroed 12)

def setTriggerSource (d : DataArray) (value : Nat) : DataArray :=
  d.setByte 2 (setBits (d.array 2) 0 2 value)

def getTriggerSource (d : DataArray) : Nat := getBits (d.array 2) 0 2

def setRecordLength (d : DataArray) (value : Nat) : DataArray :=
  d.setByte 2 (setBits (d.array 2) 2 3 value)

def getRecordLength (d : DataArray) : Nat := getBits (d.array 2) 2 3

def setSamplerateId (d : DataArray) (value : Nat) : DataArray :=
  d.setByte 2 (setBits (d.array 2) 5 2 value)

def getSamplerateId (d : DataArray) : Nat := getBits (d.array 2) 5 2

def setDownsamplingMode (d : DataArray) (downsampling : Bool) : DataArray :=
  d.setByte 2 (setBits (d.array 2) 7 1 (if downsampling then 1 else 0))

def getDownsamplingMode (d : DataArray) : Bool := getBits (d.array 2) 7 1 == 1

def setUsedChannels (d : DataArray) (value : Nat) : DataArray :=
  d.setByte 3 (setBits (d.array 3) 0 2 value)

def getUsedChannels (d : DataArray) : Nat := getBits (d.array 3) 0 2

def setFastRate (d : DataArray) (fastRate : Bool) : DataArray :=
  d.setByte 3 (setBits (d.array 3) 2 1 (if fastRate then 1 else 0))

def getFastRate (d : DataArray) : Bool := getBits (d.array 3) 2 1 == 1

def setTriggerSlope (d : DataArray) (slope : Nat) : DataArray :=
  d.setByte 3 (setBits (d.array 3) 3 1 slope)

def getTriggerSlope (d : DataArray) : Nat := getBits (d.array 3) 3 1

/-- Lines 179-182: array[4] = (uint8_t)downsampler;
array[5] = (uint8_t)(downsampler >> 8). -/
def setDownsampler (d : DataArray) (downsampler : Nat) : DataArray :=
  (d.setByte 4 downsampler).setByte 5 (downsampler / 256)

/-- Lines 173-175: (uint16_t)array[4] | ((uint16_t)array[5] << 8); on
disjoint byte ranges bitwise or is addition. -/
def getDownsampler (d : DataArray) : Nat := d.array 4 + d.array 5 * 256

/-- Lines 192-196: array[6] = (uint8_t)position; array[7] =
(uint8_t)(position >> 8); array[10] = (uint8_t)(position >> 16). -/
def setTriggerPosition (d : DataArray) (position : Nat) : DataArray :=
  ((d.setByte 6 position).setByte 7 (position / 256)).setByte 10 (position / 65536)

/-- Lines 186-188: array[6] | array[7] << 8 | array[10] << 16. -/
def getTriggerPosition (d : DataArray) : Nat :=
  d.array 6 + d.array 7 * 256 + d.array 10 * 65536

/-- Constructor with all field values (lines 81-97). -/
def build (downsampler triggerPosition triggerSource recordLength samplerateId : Nat)
    (downsamplingMode : Bool) (usedChannels : Nat) (fastRate : Bool)
    (triggerSlope : Nat) : DataArray :=
  setTriggerPosition
    (setDownsampler
      (setTriggerSlope
        (setFastRate
          (setUsedChannels
            (setDownsamplingMode
              (setSamplerateId
                (setRecordLength
                  (setTriggerSource empty triggerSource)
                recordLength)
              samplerateId)
            downsamplingMode)
          usedChannels)
        fastRate)
      triggerSlope)
    downsampler)
  triggerPosition

end BulkSetTriggerAndSamplerate

/-! ## BulkResponseGetCaptureState (bulkStructs.cpp lines 229-239) -/

/-- Modelled from the spec: states.h with the CaptureState enum is not
among the sources; the spec's concrete scenario fixes the Sampling state
to wire code 0x02 (capture-state response starting 0x02 decodes to state
Sampling). -/
def CAPTURE_SAMPLING : Nat := 0x02

namespace BulkResponseGetCaptureState

/-- Constructor: a zeroed 512-byte array (line 229). -/
def empty : DataArray := DataArray.zeroed 512

/-- Line 233: the state is the byte at offset 0 (the C++ casts it to the
CaptureState enum, which does not change the code). -/
def getCaptureState (d : DataArray) : Nat := d.array 0

/-- Lines 237-239: array[2] | array[3] << 8 | array[1] << 16; on disjoint
byte ranges bitwise or is addition. -/
def getTriggerPoint (d : DataArray) : Nat :=
  d.array 2 + d.array 3 * 256 + d.array 1 * 65536

end BulkResponseGetCaptureState

/-! ## BulkSetGain (bulkStructs.cpp lines 244-279)

Modelled from the spec: GainBits is not among the sources; offset 2 packs
the per-channel gain ids, two bits each from bit 0. -/

namespace BulkSetGain

def init (d : DataArray) : DataArray := d.setByte 0 BULK_SETGAIN

def empty : DataArray := init (DataArray.zeroed 8)

def setGain (d : DataArray) (channel : Nat) (value : Nat) : DataArray :=
  if channel = 0 then d.setByte 2 (setBits (d.array 2) 0 2 value)
  else d.setByte 2 (setBits (d.array 2) 2 2 value)

def getGain (d : DataArray) (channel : Nat) : Nat :=
  if channel = 0 then getBits (d.array 2) 0 2 else getBits (d.array 2) 2 2

def build (channel1 channel2 : Nat) : DataArray :=
  setGain (setGain empty 0 channel1) 1 channel2

end BulkSetGain

/-! ## BulkSetLogicalData (bulkStructs.cpp lines 284-303) -/

namespace BulkSetLogicalData

def init (d : DataArray) : DataArray := d.setByte 0 BULK_SETLOGICALDATA

def empty : DataArray := init (DataArray.zeroed 8)

def setData (d : DataArray) (data : Nat) : DataArray := d.setByte 2 data

def getData (d : DataArray) : Nat := d.array 2

def build (data : Nat) : DataArray := setData empty data

end BulkSetLogicalData

/-! ## BulkSetChannels2250 (bulkStructs.cpp lines 313-332) -/

namespace BulkSetChannels2250

def init (d : DataArray) : DataArray := d.setByte 0 BULK_BSETCHANNELS

def empty : DataArray := init (DataArray.zeroed 4)

def setUsedChannels (d : DataArray) (value : Nat) : DataArray := d.setByte 2 value

def getUsedChannels (d : DataArray) : Nat := d.array 2

def build (usedChannels : Nat) : DataArray := setUsedChannels empty usedChannels

end BulkSetChannels2250

/-! ## BulkSetTrigger2250 (bulkStructs.cpp lines 337-366)

Modelled from the spec: CTriggerBits is not among the sources; offset 2
packs triggerSource (2 bits from bit 0) and triggerSlope (1 bit). -/

namespace BulkSetTrigger2250

def init (d : DataArray) : DataArray := d.setByte 0 BULK_CSETTRIGGERORSAMPLERATE

def empty : DataArray := init (DataArray.zeroed 8)

def setTriggerSource (d : DataArray) (value : Nat) : DataArray :=
  d.setByte 2 (setBits (d.array 2) 0 2 value)

def getTriggerSource (d : DataArray) : Nat := getBits (d.array 2) 0 2

def setTriggerSlope (d : DataArray) (slope : Nat) : DataArray :=
  d.setByte 2 (setBits (d.array 2) 2 1 slope)

def getTriggerSlope (d : DataArray) : Nat := getBits (d.array 2) 2 1

def build (triggerSource triggerSlope : Nat) : DataArray :=
  setTriggerSlope (setTriggerSource empty triggerSource) triggerSlope

end BulkSetTrigger2250

/-! ## BulkSetSamplerate5200 (bulkStructs.cpp lines 371-405) -/

namespace BulkSetSamplerate5200

def init (d : DataArray) : DataArray := d.setByte 0 BULK_CSETTRIGGERORSAMPLERATE

def empty : DataArray := init (DataArray.zeroed 6)

def setSamplerateFast (d : DataArray) (value : Nat) : DataArray := d.setByte 4 value

def getSamplerateFast (d : DataArray) : Nat := d.array 4

def setSamplerateSlow (d : DataArray) (samplerate : Nat) : DataArray :=
  (d.setByte 2 samplerate).setByte 3 (samplerate / 256)

def getSamplerateSlow (d : DataArray) : Nat := d.array 2 + d.array 3 * 256

def build (samplerateSlow samplerateFast : Nat) : DataArray :=
  setSamplerateSlow (setSamplerateFast empty samplerateFast) samplerateSlow

end BulkSetSamplerate5200

/-! ## BulkSetRecordLength2250 (bulkStructs.cpp lines 410-429) -/

namespace BulkSetRecordLength2250

def init (d : DataArray) : DataArray := d.setByte 0 BULK_DSETBUFFER

def empty : DataArray := init (DataArray.zeroed 4)

def setRecordLength (d : DataArray) (value : Nat) : DataArray := d.setByte 2 value

def getRecordLength (d : DataArray) : Nat := d.array 2

def build (recordLength : Nat) : DataArray := setRecordLength empty recordLength

end BulkSetRecordLength2250

/-! ## BulkSetBuffer5200 (bulkStructs.cpp lines 434-509)

Modelled from the spec: DBufferBits is not among the sources; the byte at
offset 8 packs a one-bit triggerPositionUsed (bit 0) and a 3-bit
recordLength (bits 1-3). -/

namespace BulkSetBuffer5200

/-- Lines 505-509: opcode at 0 and the sentinel 0xff bytes at offsets 5
and 9. -/
def init (d : DataArray) : DataArray :=
  ((d.setByte 0 BULK_DSETBUFFER).setByte 5 0xff).setByte 9 0xff

def empty : DataArray := init (DataArray.zeroed 10)

def setTriggerPositionPre (d : DataArray) (position : Nat) : DataArray :=
  (d.setByte 2 position).setByte 3 (position / 256)

def getTriggerPositionPre (d : DataArray) : Nat := d.array 2 + d.array 3 * 256

def setTriggerPositionPost (d : DataArray) (position : Nat) : DataArray :=
  (d.setByte 6 position).setByte 7 (position / 256)

def getTriggerPositionPost (d : DataArray) : Nat := d.array 6 + d.array 7 * 256

def setUsedPre (d : DataArray) (value : Nat) : DataArray := d.setByte 4 value

def getUsedPre (d : DataArray) : Nat := d.array 4

def setUsedPost (d : DataArray) (value : Nat) : DataArray :=
  d.setByte 8 (setBits (d.array 8) 0 1 value)

def getUsedPost (d : DataArray) : Nat := getBits (d.array 8) 0 1

def setRecordLength (d : DataArray) (value : Nat) : DataArray :=
  d.setByte 8 (setBits (d.array 8) 1 3 value)

def getRecordLength (d : DataArray) : Nat := getBits (d.array 8) 1 3

/-- Constructor (lines 442-452). -/
def build (triggerPositionPre triggerPositionPost usedPre usedPost recordLength : Nat) :
    DataArray :=
  setRecordLength
    (setUsedPost
      (setUsedPre
        (setTriggerPositionPost
          (setTriggerPositionPre empty triggerPositionPre)
        triggerPositionPost)
      usedPre)
    usedPost)
  recordLength

end BulkSetBuffer5200

/-! ## BulkSetSamplerate2250 (bulkStructs.cpp lines 514-561)

Modelled from the spec: ESamplerateBits is not among the sources; the byte
at offset 2 packs one-bit fastRate (bit 0) and one-bit downsampling
(bit 1). -/

namespace BulkSetSamplerate2250

def init (d : DataArray) : DataArray := d.setByte 0 BULK_ESETTRIGGERORSAMPLERATE

def empty : DataArray := init (DataArray.zeroed 8)

def setFastRate (d : DataArray) (fastRate : Bool) : DataArray :=
  d.setByte 2 (setBits (d.array 2) 0 1 (if fastRate then 1 else 0))

def getFastRate (d : DataArray) : Bool := getBits (d.array 2) 0 1 == 1

def setDownsampling (d : DataArray) (downsampling : Bool) : DataArray :=
  d.setByte 2 (setBits (d.array 2) 1 1 (if downsampling then 1 else 0))

def getDownsampling (d : DataArray) : Bool := getBits (d.array 2) 1 1 == 1

def setSamplerate (d : DataArray) (samplerate : Nat) : DataArray :=
  (d.setByte 4 samplerate).setByte 5 (samplerate / 256)

def getSamplerate (d : DataArray) : Nat := d.array 4 + d.array 5 * 256

def build (fastRate downsampling : Bool) (samplerate : Nat) : DataArray :=
  setSamplerate (setDownsampling (setFastRate empty fastRate) downsampling) samplerate

end BulkSetSamplerate2250

/-! ## BulkSetTrigger5200 (bulkStructs.cpp lines 566-630)

Modelled from the spec: ETsrBits is not among the sources; the byte at
offset 2 packs one-bit fastRate (bit 0), usedChannels (2 bits),
triggerSource (2 bits), triggerSlope (1 bit) and one-bit triggerPulse.
Per the source comments the stored fastRate bit is inverted: the setter
stores 0 for true and 1 for false, and the getter compares against 0. -/

namespace BulkSetTrigger5200

/-- Lines 627-630: opcode at 0 and the fixed byte 0x02 at offset 4. -/
def init (d : DataArray) : DataArray :=
  (d.setByte 0 BULK_ESETTRIGGERORSAMPLERATE).setByte 4 0x02

def empty : DataArray := init (DataArray.zeroed 8)

/-- Line 608: fastRate bit stores the inverted flag. -/
def setFastRate (d : DataArray) (fastRate : Bool) : DataArray :=
  d.setByte 2 (setBits (d.array 2) 0 1 (if fastRate then 0 else 1))

/-- Line 604: true exactly when the stored bit is 0 (already inverted). -/
def getFastRate (d : DataArray) : Bool := getBits (d.array 2) 0 1 == 0

def setUsedChannels (d : DataArray) (value : Nat) : DataArray :=
  d.setByte 2 (setBits (d.array 2) 1 2 value)

def getUsedChannels (d : DataArray) : Nat := getBits (d.array 2) 1 2

def setTriggerSource (d : DataArray) (value : Nat) : DataArray :=
  d.setByte 2 (setBits (d.array 2) 3 2 value)

def getTriggerSource (d : DataArray) : Nat := getBits (d.array 2) 3 2

def setTriggerSlope (d : DataArray) (slope : Nat) : DataArray :=
  d.setByte 2 (setBits (d.array 2) 5 1 slope)

def getTriggerSlope (d : DataArray) : Nat := getBits (d.array 2) 5 1

def setTriggerPulse (d : DataArray) (pulse : Bool) : DataArray :=
  d.setByte 2 (setBits (d.array 2) 6 1 (if pulse then 1 else 0))

def getTriggerPulse (d : DataArray) : Bool := getBits (d.array 2) 6 1 == 1

/-- Constructor (lines 574-584). -/
def build (triggerSource usedChannels : Nat) (fastRate : Bool)
    (triggerSlope : Nat) (triggerPulse : Bool) : DataArray :=
  setTriggerPulse
    (setTriggerSlope
      (setFastRate
        (setUsedChannels
          (setTriggerSource empty triggerSource)
        usedChannels)
      fastRate)
    triggerSlope)
  triggerPulse

end BulkSetTrigger5200

/-! ## BulkSetBuffer2250 (bulkStructs.cpp lines 636-678) -/

namespace BulkSetBuffer2250

def init (d : DataArray) : DataArray := d.setByte 0 BULK_FSETBUFFER

/-- Default constructor (line 636): DataArray of size 10. -/
def empty : DataArray := init (DataArray.zeroed 10)

def setTriggerPositionPost (d : DataArray) (position : Nat) : DataArray :=
  ((d.setByte 2 position).setByte 3 (position / 256)).setByte 4 (position / 65536)

def getTriggerPositionPost (d : DataArray) : Nat :=
  d.array 2 + d.array 3 * 256 + d.array 4 * 65536

def setTriggerPositionPre (d : DataArray) (position : Nat) : DataArray :=
  ((d.setByte 6 position).setByte 7 (position / 256)).setByte 8 (position / 65536)

def getTriggerPositionPre (d : DataArray) : Nat :=
  d.array 6 + d.array 7 * 256 + d.array 8 * 65536

/-- Two-argument constructor (lines 641-647): note it constructs a
DataArray of size 12, unlike the default constructor's 10. -/
def build (triggerPositionPre triggerPositionPost : Nat) : DataArray :=
  setTriggerPositionPost
    (setTriggerPositionPre (init (DataArray.zeroed 12)) triggerPositionPre)
  triggerPositionPost

end BulkSetBuffer2250

/-! ## Setter-call sequences

To reason about arbitrary sequences of setter calls on one frame we reify
the public setters of BulkSetBuffer5200 and BulkSetTrigger5200 as
operations and fold them over the frame. -/

inductive Buffer5200Op where
  | opSetTriggerPositionPre (position : Nat)
  | opSetTriggerPositionPost (position : Nat)
  | opSetUsedPre (value : Nat)
  | opSetUsedPost (value : Nat)
  | opSetRecordLength (value : Nat)

def Buffer5200Op.apply : Buffer5200Op → DataArray → DataArray
  | .opSetTriggerPositionPre p, d => BulkSetBuffer5200.setTriggerPositionPre d p
  | .opSetTriggerPositionPost p, d => BulkSetBuffer5200.setTriggerPositionPost d p
  | .opSetUsedPre v, d => BulkSetBuffer5200.setUsedPre d v
  | .opSetUsedPost v, d => BulkSetBuffer5200.setUsedPost d v
  | .opSetRecordLength v, d => BulkSetBuffer5200.setRecordLength d v

def applyBuffer5200Ops (ops : List Buffer5200Op) (d : DataArray) : DataArray :=
  ops.foldl (fun d op => op.apply d) d

inductive Trigger5200Op where
  | opSetTriggerSource (value : Nat)
  | opSetUsedChannels (value : Nat)
  | opSetFastRate (fastRate : Bool)
  | opSetTriggerSlope (slope : Nat)
  | opSetTriggerPulse (pulse : Bool)

def Trigger5200Op.apply : Trigger5200Op → DataArray → DataArray
  | .opSetTriggerSource v, d => BulkSetTrigger5200.setTriggerSource d v
  | .opSetUsedChannels v, d => BulkSetTrigger5200.setUsedChannels d v
  | .opSetFastRate b, d => BulkSetTrigger5200.setFastRate d b
  | .opSetTriggerSlope v, d => BulkSetTrigger5200.setTriggerSlope d v
  | .opSetTriggerPulse b, d => BulkSetTrigger5200.setTriggerPulse d b

def applyTrigger5200Ops (ops : List Trigger5200Op) (d : DataArray) : DataArray :=
  ops.foldl (fun d op => op.apply d) d

/-- The capture-state response of the spec's concrete scenario: a 512-byte
response starting 0x02, 0xAB, 0x34, 0x12. -/
def exampleCaptureResponse : DataArray :=
  ((((BulkResponseGetCaptureState.empty).setByte 0 0x02).setByte 1 0xAB).setByte
    2 0x34).setByte 3 0x12

/-! ## USB session layer (usb/usbdevice.cpp)

The libusb calls are abstracted by an oracle assigning to each call index
(and the requested length) the outcome the device produces: the
libusb-style result code (negative error, or non-negative, which for
control transfers is the byte count and for bulk transfers is 0 while the
byte count goes to transferred) and the first byte of IN data.  Timeouts
are part of the outcome, so the timeout argument of the C++ functions has
no separate meaning in the model.  The retry loops of the C++ can run
forever (attempts == -1 with a device that always times out), so every
loop takes a fuel bound and returns none when the bound is hit. -/

def LIBUSB_SUCCESS : Int := 0
def LIBUSB_ERROR_NO_DEVICE : Int := -4
def LIBUSB_ERROR_NOT_FOUND : Int := -5
def LIBUSB_ERROR_TIMEOUT : Int := -7
def LIBUSB_CLASS_VENDOR_SPEC : Nat := 0xff
def LIBUSB_ENDPOINT_IN : Nat := 0x80
def LIBUSB_REQUEST_TYPE_VENDOR : Nat := 0x40

/-- Modelled from the spec: usbdevice.h declaring the endpoint constants
is not among the sources; the spec gives HANTEK_EP_OUT = 0x02 and
HANTEK_EP_IN = 0x86. -/
def HANTEK_EP_OUT : Nat := 0x02

/-- Modelled from the spec: usbdevice.h declaring the endpoint constants
is not among the sources; the spec gives HANTEK_EP_IN = 0x86. -/
def HANTEK_EP_IN : Nat := 0x86

def CONTROL_GETSPEED : Nat := 0xb2
def CONTROL_BEGINCOMMAND : Nat := 0xb3

/-- Modelled from the spec: the default retry count of the transfer
functions is declared in usbdevice.h, which is not among the sources; its
exact value does not matter for the properties proved here, only that it
is at least 1. -/
def HANTEK_ATTEMPTS_DEFAULT : Int := 3

/-- One physical transfer on the wire: a control transfer with its request
type byte and request code, or a bulk transfer on an endpoint. -/
inductive TransferEvent where
  | control (typ : Nat) (request : Nat)
  | bulk (endpoint : Nat)
deriving DecidableEq

/-- Outcome the device produces for one libusb call. -/
structure Outcome where
  code : Int
  transferred : Nat
  data0 : Nat
deriving DecidableEq

abbrev Oracle := Nat → Nat → Outcome

/-- The mutable part of USBDevice relevant to the transfer functions,
together with the run log: the next oracle index and the transfers issued
so far. -/
structure USBDevice where
  handle : Bool
  allowBulkTransfer : Bool
  inPacketLength : Nat
  outPacketLength : Nat
  claimedInterface : Int
  idx : Nat
  events : List TransferEvent
deriving DecidableEq

/-- connectionLost (lines 85-99): release the interface and drop the
handle; does nothing when the handle is already gone. -/
def connectionLost (s : USBDevice) : USBDevice :=
  if s.handle then { s with handle := false, claimedInterface := -1 } else s

/-- Issue one libusb call: consume the next oracle outcome and log the
transfer. -/
def doCall (oracle : Oracle) (ev : TransferEvent) (len : Nat) (s : USBDevice) :
    Outcome × USBDevice :=
  (oracle s.idx len, { s with idx := s.idx + 1, events := s.events ++ [ev] })

/-- The shared retry loop of bulkTransfer (lines 111-114) and
controlTransfer (lines 210-212): errorCode starts as LIBUSB_ERROR_TIMEOUT
and the body runs while (attempt < attempts or attempts == -1) and
errorCode == LIBUSB_ERROR_TIMEOUT. -/
def retryAux (oracle : Oracle) (ev : TransferEvent) (len : Nat) (attempts : Int)
    (fuel attempt : Nat) (s : USBDevice) : Option (Outcome × USBDevice) :=
  if (attempt : Int) < attempts ∨ attempts = -1 then
    match fuel with
    | 0 => none
    | fuel + 1 =>
      let p := doCall oracle ev len s
      if p.1.code = LIBUSB_ERROR_TIMEOUT then
        retryAux oracle ev len attempts fuel (attempt + 1) p.2
      else some p
  else some (⟨LIBUSB_ERROR_TIMEOUT, 0, 0⟩, s)

/-- bulkTransfer (lines 107-121). -/
def bulkTransfer (oracle : Oracle) (endpoint : Nat) (length : Nat) (attempts : Int)
    (fuel : Nat) (s : USBDevice) : Option (Int × USBDevice) :=
  if s.handle then
    match retryAux oracle (.bulk endpoint) length attempts fuel 0 s with
    | none => none
    | some (o, s1) =>
      let s2 := if o.code = LIBUSB_ERROR_NO_DEVICE then connectionLost s1 else s1
      if o.code < 0 then some (o.code, s2) else some ((o.transferred : Int), s2)
  else some (LIBUSB_ERROR_NO_DEVICE, s)

/-- controlTransfer (lines 206-216): returns the libusb result directly
(bytes on success), together with the first received byte. -/
def controlTransfer (oracle : Oracle) (typ request : Nat) (length : Nat)
    (attempts : Int) (fuel : Nat) (s : USBDevice) :
    Option (Int × Nat × USBDevice) :=
  if s.handle then
    match retryAux oracle (.control typ request) length attempts fuel 0 s with
    | none => none
    | some (o, s1) =>
      let s2 := if o.code = LIBUSB_ERROR_NO_DEVICE then connectionLost s1 else s1
      some (o.code, o.data0, s2)
  else some (LIBUSB_ERROR_NO_DEVICE, 0, s)

/-- controlWrite (lines 226-232): vendor-type control-out. -/
def controlWrite (oracle : Oracle) (request : Nat) (length : Nat) (attempts : Int)
    (fuel : Nat) (s : USBDevice) : Option (Int × Nat × USBDevice) :=
  if s.handle then
    controlTransfer oracle LIBUSB_REQUEST_TYPE_VENDOR request length attempts fuel s
  else some (LIBUSB_ERROR_NO_DEVICE, 0, s)

/-- controlRead (lines 242-248): vendor-type control-in. -/
def controlRead (oracle : Oracle) (request : Nat) (length : Nat) (attempts : Int)
    (fuel : Nat) (s : USBDevice) : Option (Int × Nat × USBDevice) :=
  if s.handle then
    controlTransfer oracle (LIBUSB_REQUEST_TYPE_VENDOR + LIBUSB_ENDPOINT_IN)
      request length attempts fuel s
  else some (LIBUSB_ERROR_NO_DEVICE, 0, s)

/-- getConnectionSpeed (lines 252-260): a 10-byte control-in on
CONTROL_GETSPEED whose first byte is the ConnectionSpeed (the shape of the
ControlGetSpeed response is modelled from the spec, controlStructs being
absent from the sources). -/
def getConnectionSpeedOp (oracle : Oracle) (fuel : Nat) (s : USBDevice) :
    Option (Int × USBDevice) :=
  match controlRead oracle CONTROL_GETSPEED 10 HANTEK_ATTEMPTS_DEFAULT fuel s with
  | none => none
  | some (e, d0, s1) => if e < 0 then some (e, s1) else some ((d0 : Int), s1)

/-- bulkWrite (lines 128-135): a speed query, then the bulk-out transfer. -/
def bulkWrite (oracle : Oracle) (length : Nat) (attempts : Int) (fuel : Nat)
    (s : USBDevice) : Option (Int × USBDevice) :=
  if s.handle then
    match getConnectionSpeedOp oracle fuel s with
    | none => none
    | some (e, s1) =>
      if e < 0 then some (e, s1)
      else bulkTransfer oracle HANTEK_EP_OUT length attempts fuel s1
  else some (LIBUSB_ERROR_NO_DEVICE, s)

/-- bulkCommand (lines 155-167): when bulk transfers are administratively
allowed, the 10-byte BEGIN_COMMAND control write, then bulkWrite of the
frame body of the given size. -/
def bulkCommand (oracle : Oracle) (commandSize : Nat) (attempts : Int) (fuel : Nat)
    (s : USBDevice) : Option (Int × USBDevice) :=
  if s.handle then
    if s.allowBulkTransfer then
      match controlWrite oracle CONTROL_BEGINCOMMAND 10 HANTEK_ATTEMPTS_DEFAULT fuel s with
      | none => none
      | some (e, _, s1) =>
        if e < 0 then some (e, s1) else bulkWrite oracle commandSize attempts fuel s1
    else some (LIBUSB_SUCCESS, s)
  else some (LIBUSB_ERROR_NO_DEVICE, s)

/-- The packet loop of bulkReadMulti (lines 182-189): errorCode starts as
inPacketLength and the loop runs while received < length and errorCode ==
inPacketLength, each iteration reading min(length - received,
inPacketLength) bytes and accumulating positive results. -/
def bulkReadMultiAux (oracle : Oracle) (length : Nat) (attempts : Int) (P : Nat)
    (retryFuel fuel received : Nat) (errorCode : Int) (s : USBDevice) :
    Option (Int × Nat × USBDevice) :=
  if received < length ∧ errorCode = (P : Int) then
    match fuel with
    | 0 => none
    | fuel + 1 =>
      match bulkTransfer oracle HANTEK_EP_IN (min (length - received) P) attempts
          retryFuel s with
      | none => none
      | some (e, s1) =>
        bulkReadMultiAux oracle length attempts P retryFuel fuel
          (if 0 < e then received + e.toNat else received) e s1
  else some (errorCode, received, s)

/-- bulkReadMulti (lines 174-195): a speed query, then the packet loop;
returns the accumulated byte count when positive, otherwise the last
errorCode. -/
def bulkReadMulti (oracle : Oracle) (length : Nat) (attempts : Int) (fuel : Nat)
    (s : USBDevice) : Option (Int × USBDevice) :=
  if s.handle then
    match getConnectionSpeedOp oracle fuel s with
    | none => none
    | some (e, s1) =>
      if e < 0 then some (e, s1)
      else
        match bulkReadMultiAux oracle length attempts s1.inPacketLength fuel fuel 0
            (s1.inPacketLength : Int) s1 with
        | none => none
        | some (errorCode, received, s2) =>
          if 0 < received then some ((received : Int), s2) else some (errorCode, s2)
  else some (LIBUSB_ERROR_NO_DEVICE, s)

/-! ## Device enumeration and connect (usbdevice.cpp lines 20-105) -/

structure EndpointDescriptor where
  bEndpointAddress : Nat
  wMaxPacketSize : Nat
deriving DecidableEq

structure InterfaceDescriptor where
  bInterfaceNumber : Nat
  bInterfaceClass : Nat
  bInterfaceSubClass : Nat
  bInterfaceProtocol : Nat
  endpoints : List EndpointDescriptor
deriving DecidableEq

/-- One libusb_interface: its list of altsettings (num_altsetting is the
length). -/
structure UsbInterface where
  altsettings : List InterfaceDescriptor
deriving DecidableEq

structure ConfigDescriptor where
  interfaces : List UsbInterface
deriving DecidableEq

structure DeviceDescriptor where
  idVendor : Nat
  idProduct : Nat
deriving DecidableEq

/-- The DSOModel fields used by usbdevice.cpp. -/
structure DSOModel where
  vendorID : Nat
  productID : Nat
deriving DecidableEq

/-- The host-side results of the libusb enumeration calls used by
connectDevice. -/
structure UsbEnv where
  openResult : Int
  config : ConfigDescriptor
  claimResult : Int
deriving DecidableEq

/-- needsFirmware (lines 103-105). -/
def needsFirmware (descriptor : DeviceDescriptor) (model : DSOModel) : Bool :=
  descriptor.idProduct != model.productID || descriptor.idVendor != model.vendorID

/-- claimInterface (lines 64-83): claim, record the interface number and
scan the endpoints for the OUT and IN addresses, recording their maximum
packet sizes. -/
def claimInterface (env : UsbEnv) (interfaceDescriptor : InterfaceDescriptor)
    (endpointOut endPointIn : Nat) (s : USBDevice) : Int × USBDevice :=
  if env.claimResult < 0 then (env.claimResult, s)
  else
    let s1 := { s with claimedInterface := (interfaceDescriptor.bInterfaceNumber : Int),
                       outPacketLength := 0, inPacketLength := 0 }
    let s2 := interfaceDescriptor.endpoints.foldl (fun t e =>
      if e.bEndpointAddress = endpointOut then { t with outPacketLength := e.wMaxPacketSize }
      else if e.bEndpointAddress = endPointIn then { t with inPacketLength := e.wMaxPacketSize }
      else t) s1
    (LIBUSB_SUCCESS, s2)

/-- The interface scan of connectDevice (lines 33-47): skip interfaces
without altsettings, and claim the first vendor-specific one with exactly
two endpoints (then break); errorCode stays LIBUSB_ERROR_NOT_FOUND when
none matches. -/
def connectScan (env : UsbEnv) (s : USBDevice) : List UsbInterface → Int × USBDevice
  | [] => (LIBUSB_ERROR_NOT_FOUND, s)
  | i :: rest =>
    match i.altsettings with
    | [] => connectScan env s rest
    | alt0 :: _ =>
      if alt0.bInterfaceClass = LIBUSB_CLASS_VENDOR_SPEC ∧ alt0.bInterfaceSubClass = 0 ∧
          alt0.bInterfaceProtocol = 0 ∧ alt0.endpoints.length = 2 then
        claimInterface env alt0 HANTEK_EP_OUT HANTEK_EP_IN s
      else connectScan env s rest

/-- connectDevice (lines 20-60): refuse when needsFirmware; return true at
once when already connected; open the handle; find and claim the
interface. -/
def connectDevice (env : UsbEnv) (descriptor : DeviceDescriptor) (model : DSOModel)
    (s : USBDevice) : Bool × USBDevice :=
  if needsFirmware descriptor model then (false, s)
  else if s.handle then (true, s)
  else if env.openResult ≠ LIBUSB_SUCCESS then (false, s)
  else
    let s1 := { s with handle := true }
    let r := connectScan env s1 env.config.interfaces
    if r.1 ≠ LIBUSB_SUCCESS then (false, r.2) else (true, r.2)

/-! ## Concrete runs used by the witnesses and counterexamples -/

/-- A device session that is connected, allows bulk transfer and has the
high-speed 512-byte IN packets, with an empty run log. -/
def session0 : USBDevice := ⟨true, true, 512, 512, 0, 0, []⟩

/-- A device whose every transfer succeeds immediately, transferring the
full requested length. -/
def oracleOk : Oracle := fun _ len => ⟨0, len, 0⟩

/-- A device answering control transfers with their full length and bulk
reads short: 5 bytes on the second call (call index 1), full otherwise. -/
def oracleShort1 : Oracle := fun i len => if i = 2 then ⟨0, 5, 0⟩ else ⟨0, len, 0⟩

/-- A device that is gone: every transfer reports LIBUSB_ERROR_NO_DEVICE. -/
def oracleGone : Oracle := fun _ _ => ⟨LIBUSB_ERROR_NO_DEVICE, 0, 0⟩

/-- A device that always times out. -/
def oracleTimeout : Oracle := fun _ _ => ⟨LIBUSB_ERROR_TIMEOUT, 0, 0⟩

/-- A device timing out on its first call and succeeding afterwards. -/
def oracleLate : Oracle := fun i len =>
  if i = 0 then ⟨LIBUSB_ERROR_TIMEOUT, 0, 0⟩ else ⟨0, len, 0⟩

end Hantek

/-! # Claims -/

open Hantek

/-- Bytes 5 and 9 are untouched by every BulkSetBuffer5200 setter. -/
theorem buffer5200Op_preserves (op : Buffer5200Op) (d : DataArray) :
    (op.apply d).array 5 = d.array 5 ∧ (op.apply d).array 9 = d.array 9 := by
  cases op <;>
    simp [Buffer5200Op.apply, BulkSetBuffer5200.setTriggerPositionPre,
      BulkSetBuffer5200.setTriggerPositionPost, BulkSetBuffer5200.setUsedPre,
      BulkSetBuffer5200.setUsedPost, BulkSetBuffer5200.setRecordLength,
      DataArray.setByte]

/-- Bytes 5 and 9 are untouched by every sequence of BulkSetBuffer5200
setter calls. -/
theorem applyBuffer5200Ops_preserves (ops : List Buffer5200Op) :
    ∀ d : DataArray, (applyBuffer5200Ops ops d).array 5 = d.array 5 ∧
      (applyBuffer5200Ops ops d).array 9 = d.array 9 := by
  induction ops with
  | nil => intro d; exact ⟨rfl, rfl⟩
  | cons op rest ih =>
    intro d
    have h1 := buffer5200Op_preserves op d
    have h2 := ih (op.apply d)
    simpa [applyBuffer5200Ops, h1.1, h1.2] using h2

/-- Byte 4 is untouched by every BulkSetTrigger5200 setter. -/
theorem trigger5200Op_preserves (op : Trigger5200Op) (d : DataArray) :
    (op.apply d).array 4 = d.array 4 := by
  cases op <;>
    simp [Trigger5200Op.apply, BulkSetTrigger5200.setTriggerSource,
      BulkSetTrigger5200.setUsedChannels, BulkSetTrigger5200.setFastRate,
      BulkSetTrigger5200.setTriggerSlope, BulkSetTrigger5200.setTriggerPulse,
      DataArray.setByte]

/-- Byte 4 is untouched by every sequence of BulkSetTrigger5200 setter
calls. -/
theorem applyTrigger5200Ops_preserves (ops : List Trigger5200Op) :
    ∀ d : DataArray, (applyTrigger5200Ops ops d).array 4 = d.array 4 := by
  induction ops with
  | nil => intro d; rfl
  | cons op rest ih =>
    intro d
    have h1 := trigger5200Op_preserves op d
    have h2 := ih (op.apply d)
    simpa [applyTrigger5200Ops, h1] using h2

/-- C1: for every wire frame type and every field, calling the field's
setter with a value in the field's declared range on an arbitrary frame
state (so regardless of the values of the other fields) and then the
matching getter returns that value. -/
theorem c1_field_roundtrip :
    (∀ (d : DataArray) (c : Nat) (b : Bool),
      BulkSetFilter.getChannel (BulkSetFilter.setChannel d c b) c = b) ∧
    (∀ (d : DataArray) (b : Bool),
      BulkSetFilter.getTrigger (BulkSetFilter.setTrigger d b) = b) ∧
    (∀ (d : DataArray) (v : Nat), v < 4 →
      BulkSetTriggerAndSamplerate.getTriggerSource
        (BulkSetTriggerAndSamplerate.setTriggerSource d v) = v) ∧
    (∀ (d : DataArray) (v : Nat), v < 8 →
      BulkSetTriggerAndSamplerate.getRecordLength
        (BulkSetTriggerAndSamplerate.setRecordLength d v) = v) ∧
    (∀ (d : DataArray) (v : Nat), v < 4 →
      BulkSetTriggerAndSamplerate.getSamplerateId
        (BulkSetTriggerAndSamplerate.setSamplerateId d v) = v) ∧
    (∀ (d : DataArray) (b : Bool),
      BulkSetTriggerAndSamplerate.getDownsamplingMode
        (BulkSetTriggerAndSamplerate.setDownsamplingMode d b) = b) ∧
    (∀ (d : DataArray) (v : Nat), v < 4 →
      BulkSetTriggerAndSamplerate.getUsedChannels
        (BulkSetTriggerAndSamplerate.setUsedChannels d v) = v) ∧
    (∀ (d : DataArray) (b : Bool),
      BulkSetTriggerAndSamplerate.getFastRate
        (BulkSetTriggerAndSamplerate.setFastRate d b) = b) ∧
    (∀ (d : DataArray) (v : Nat), v < 2 →
      BulkSetTriggerAndSamplerate.getTriggerSlope
        (BulkSetTriggerAndSamplerate.setTriggerSlope d v) = v) ∧
    (∀ (d : DataArray) (v : Nat), v < 0x10000 →
      BulkSetTriggerAndSamplerate.getDownsampler
        (BulkSetTriggerAndSamplerate.setDownsampler d v) = v) ∧
    (∀ (d : DataArray) (v : Nat), v < 0x1000000 →
      BulkSetTriggerAndSamplerate.getTriggerPosition
        (BulkSetTriggerAndSamplerate.setTriggerPosition d v) = v) ∧
    (∀ (d : DataArray) (c v : Nat), v < 4 →
      BulkSetGain.getGain (BulkSetGain.setGain d c v) c = v) ∧
    (∀ (d : DataArray) (v : Nat), v < 256 →
      BulkSetLogicalData.getData (BulkSetLogicalData.setData d v) = v) ∧
    (∀ (d : DataArray) (v : Nat), v < 256 →
      BulkSetChannels2250.getUsedChannels (BulkSetChannels2250.setUsedChannels d v) = v) ∧
    (∀ (d : DataArray) (v : Nat), v < 4 →
      BulkSetTrigger2250.getTriggerSource (BulkSetTrigger2250.setTriggerSource d v) = v) ∧
    (∀ (d : DataArray) (v : Nat), v < 2 →
      BulkSetTrigger2250.getTriggerSlope (BulkSetTrigger2250.setTriggerSlope d v) = v) ∧
    (∀ (d : DataArray) (v : Nat), v < 256 →
      BulkSetSamplerate5200.getSamplerateFast
        (BulkSetSamplerate5200.setSamplerateFast d v) = v) ∧
    (∀ (d : DataArray) (v : Nat), v < 0x10000 →
      BulkSetSamplerate5200.getSamplerateSlow
        (BulkSetSamplerate5200.setSamplerateSlow d v) = v) ∧
    (∀ (d : DataArray) (v : Nat), v < 256 →
      BulkSetRecordLength2250.getRecordLength
        (BulkSetRecordLength2250.setRecordLength d v) = v) ∧
    (∀ (d : DataArray) (v : Nat), v < 0x10000 →
      BulkSetBuffer5200.getTriggerPositionPre
        (BulkSetBuffer5200.setTriggerPositionPre d v) = v) ∧
    (∀ (d : DataArray) (v : Nat), v < 0x10000 →
      BulkSetBuffer5200.getTriggerPositionPost
        (BulkSetBuffer5200.setTriggerPositionPost d v) = v) ∧
    (∀ (d : DataArray) (v : Nat), v < 256 →
      BulkSetBuffer5200.getUsedPre (BulkSetBuffer5200.setUsedPre d v) = v) ∧
    (∀ (d : DataArray) (v : Nat), v < 2 →
      BulkSetBuffer5200.getUsedPost (BulkSetBuffer5200.setUsedPost d v) = v) ∧
    (∀ (d : DataArray) (v : Nat), v < 8 →
      BulkSetBuffer5200.getRecordLength (BulkSetBuffer5200.setRecordLength d v) = v) ∧
    (∀ (d : DataArray) (b : Bool),
      BulkSetSamplerate2250.getFastRate (BulkSetSamplerate2250.setFastRate d b) = b) ∧
    (∀ (d : DataArray) (b : Bool),
      BulkSetSamplerate2250.getDownsampling
        (BulkSetSamplerate2250.setDownsampling d b) = b) ∧
    (∀ (d : DataArray) (v : Nat), v < 0x10000 →
      BulkSetSamplerate2250.getSamplerate (BulkSetSamplerate2250.setSamplerate d v) = v) ∧
    (∀ (d : DataArray) (v : Nat), v < 4 →
      BulkSetTrigger5200.getTriggerSource (BulkSetTrigger5200.setTriggerSource d v) = v) ∧
    (∀ (d : DataArray) (v : Nat), v < 4 →
      BulkSetTrigger5200.getUsedChannels (BulkSetTrigger5200.setUsedChannels d v) = v) ∧
    (∀ (d : DataArray) (b : Bool),
      BulkSetTrigger5200.getFastRate (BulkSetTrigger5200.setFastRate d b) = b) ∧
    (∀ (d : DataArray) (v : Nat), v < 2 →
      BulkSetTrigger5200.getTriggerSlope (BulkSetTrigger5200.setTriggerSlope d v) = v) ∧
    (∀ (d : DataArray) (b : Bool),
      BulkSetTrigger5200.getTriggerPulse (BulkSetTrigger5200.setTriggerPulse d b) = b) ∧
    (∀ (d : DataArray) (v : Nat), v < 0x1000000 →
      BulkSetBuffer2250.getTriggerPositionPre
        (BulkSetBuffer2250.setTriggerPositionPre d v) = v) ∧
    (∀ (d : DataArray) (v : Nat), v < 0x1000000 →
      BulkSetBuffer2250.getTriggerPositionPost
        (BulkSetBuffer2250.setTriggerPositionPost d v) = v) := by
  refine ⟨?_, ?_, ?_, ?_, ?_, ?_, ?_, ?_, ?_, ?_, ?_, ?_, ?_, ?_, ?_, ?_, ?_, ?_,
    ?_, ?_, ?_, ?_, ?_, ?_, ?_, ?_, ?_, ?_, ?_, ?_, ?_, ?_, ?_, ?_⟩
  · intro d c b
    by_cases hc : c = 0 <;> cases b <;>
      simp only [BulkSetFilter.getChannel, BulkSetFilter.setChannel,
        DataArray.setByte, getBits, setBits, hc, if_true, if_false] <;>
      norm_num <;> omega
  · intro d b
    cases b <;>
      simp only [BulkSetFilter.getTrigger, BulkSetFilter.setTrigger,
        DataArray.setByte, getBits, setBits] <;>
      norm_num <;> omega
  · intro d v hv
    simp only [BulkSetTriggerAndSamplerate.getTriggerSource,
      BulkSetTriggerAndSamplerate.setTriggerSource, DataArray.setByte, getBits, setBits]
    norm_num; omega
  · intro d v hv
    simp only [BulkSetTriggerAndSamplerate.getRecordLength,
      BulkSetTriggerAndSamplerate.setRecordLength, DataArray.setByte, getBits, setBits]
    norm_num; omega
  · intro d v hv
    simp only [BulkSetTriggerAndSamplerate.getSamplerateId,
      BulkSetTriggerAndSamplerate.setSamplerateId, DataArray.setByte, getBits, setBits]
    norm_num; omega
  · intro d b
    cases b <;>
      simp only [BulkSetTriggerAndSamplerate.getDownsamplingMode,
        BulkSetTriggerAndSamplerate.setDownsamplingMode, DataArray.setByte,
        getBits, setBits] <;>
      norm_num <;> omega
  · intro d v hv
    simp only [BulkSetTriggerAndSamplerate.getUsedChannels,
      BulkSetTriggerAndSamplerate.setUsedChannels, DataArray.setByte, getBits, setBits]
    norm_num; omega
  · intro d b
    cases b <;>
      simp only [BulkSetTriggerAndSamplerate.getFastRate,
        BulkSetTriggerAndSamplerate.setFastRate, DataArray.setByte, getBits, setBits] <;>
      norm_num <;> omega
  · intro d v hv
    simp only [BulkSetTriggerAndSamplerate.getTriggerSlope,
      BulkSetTriggerAndSamplerate.setTriggerSlope, DataArray.setByte, getBits, setBits]
    norm_num; omega
  · intro d v hv
    simp only [BulkSetTriggerAndSamplerate.getDownsampler,
      BulkSetTriggerAndSamplerate.setDownsampler, DataArray.setByte]
    norm_num; omega
  · intro d v hv
    simp only [BulkSetTriggerAndSamplerate.getTriggerPosition,
      BulkSetTriggerAndSamplerate.setTriggerPosition, DataArray.setByte]
    norm_num; omega
  · intro d c v hv
    by_cases hc : c = 0 <;>
      simp only [BulkSetGain.getGain, BulkSetGain.setGain, DataArray.setByte,
        getBits, setBits, hc, if_true, if_false] <;>
      norm_num <;> omega
  · intro d v hv
    simp only [BulkSetLogicalData.getData, BulkSetLogicalData.setData,
      DataArray.setByte]
    norm_num; omega
  · intro d v hv
    simp only [BulkSetChannels2250.getUsedChannels,
      BulkSetChannels2250.setUsedChannels, DataArray.setByte]
    norm_num; omega
  · intro d v hv
    simp only [BulkSetTrigger2250.getTriggerSource,
      BulkSetTrigger2250.setTriggerSource, DataArray.setByte, getBits, setBits]
    norm_num; omega
  · intro d v hv
    simp only [BulkSetTrigger2250.getTriggerSlope,
      BulkSetTrigger2250.setTriggerSlope, DataArray.setByte, getBits, setBits]
    norm_num; omega
  · intro d v hv
    simp only [BulkSetSamplerate5200.getSamplerateFast,
      BulkSetSamplerate5200.setSamplerateFast, DataArray.setByte]
    norm_num; omega
  · intro d v hv
    simp only [BulkSetSamplerate5200.getSamplerateSlow,
      BulkSetSamplerate5200.setSamplerateSlow, DataArray.setByte]
    norm_num; omega
  · intro d v hv
    simp only [BulkSetRecordLength2250.getRecordLength,
      BulkSetRecordLength2250.setRecordLength, DataArray.setByte]
    norm_num; omega
  · intro d v hv
    simp only [BulkSetBuffer5200.getTriggerPositionPre,
      BulkSetBuffer5200.setTriggerPositionPre, DataArray.setByte]
    norm_num; omega
  · intro d v hv
    simp only [BulkSetBuffer5200.getTriggerPositionPost,
      BulkSetBuffer5200.setTriggerPositionPost, DataArray.setByte]
    norm_num; omega
  · intro d v hv
    simp only [BulkSetBuffer5200.getUsedPre, BulkSetBuffer5200.setUsedPre,
      DataArray.setByte]
    norm_num; omega
  · intro d v hv
    simp only [BulkSetBuffer5200.getUsedPost, BulkSetBuffer5200.setUsedPost,
      DataArray.setByte, getBits, setBits]
    norm_num; omega
  · intro d v hv
    simp only [BulkSetBuffer5200.getRecordLength, BulkSetBuffer5200.setRecordLength,
      DataArray.setByte, getBits, setBits]
    norm_num; omega
  · intro d b
    cases b <;>
      simp only [BulkSetSamplerate2250.getFastRate, BulkSetSamplerate2250.setFastRate,
        DataArray.setByte, getBits, setBits] <;>
      norm_num <;> omega
  · intro d b
    cases b <;>
      simp only [BulkSetSamplerate2250.getDownsampling,
        BulkSetSamplerate2250.setDownsampling, DataArray.setByte, getBits, setBits] <;>
      norm_num <;> omega
  · intro d v hv
    simp only [BulkSetSamplerate2250.getSamplerate, BulkSetSamplerate2250.setSamplerate,
      DataArray.setByte]
    norm_num; omega
  · intro d v hv
    simp only [BulkSetTrigger5200.getTriggerSource, BulkSetTrigger5200.setTriggerSource,
      DataArray.setByte, getBits, setBits]
    norm_num; omega
  · intro d v hv
    simp only [BulkSetTrigger5200.getUsedChannels, BulkSetTrigger5200.setUsedChannels,
      DataArray.setByte, getBits, setBits]
    norm_num; omega
  · intro d b
    cases b <;>
      simp only [BulkSetTrigger5200.getFastRate, BulkSetTrigger5200.setFastRate,
        DataArray.setByte, getBits, setBits] <;>
      norm_num <;> omega
  · intro d v hv
    simp only [BulkSetTrigger5200.getTriggerSlope, BulkSetTrigger5200.setTriggerSlope,
      DataArray.setByte, getBits, setBits]
    norm_num; omega
  · intro d b
    cases b <;>
      simp only [BulkSetTrigger5200.getTriggerPulse, BulkSetTrigger5200.setTriggerPulse,
        DataArray.setByte, getBits, setBits] <;>
      norm_num <;> omega
  · intro d v hv
    simp only [BulkSetBuffer2250.getTriggerPositionPre,
      BulkSetBuffer2250.setTriggerPositionPre, DataArray.setByte]
    norm_num; omega
  · intro d v hv
    simp only [BulkSetBuffer2250.getTriggerPositionPost,
      BulkSetBuffer2250.setTriggerPositionPost, DataArray.setByte]
    norm_num; omega

/-- Witness for C1: the triggerSource round trip at a concrete frame and a
concrete in-range value. -/
theorem c1_field_roundtrip_witness :
    3 < 4 ∧
    BulkSetTriggerAndSamplerate.getTriggerSource
      (BulkSetTriggerAndSamplerate.setTriggerSource
        BulkSetTriggerAndSamplerate.empty 3) = 3 :=
  ⟨by decide, c1_field_roundtrip.2.2.1 BulkSetTriggerAndSamplerate.empty 3 (by decide)⟩

/-- C2: the 512-byte capture-state response decodes the state from the
byte at offset 0 and assembles the 24-bit trigger point from byte 2 (low),
byte 3 (middle) and byte 1 (high). -/
theorem c2_capture_state_decode :
    BulkResponseGetCaptureState.empty.getSize = 512 ∧
    (∀ (r : DataArray) (st t1 t2 t3 : Nat), st < 256 → t1 < 256 → t2 < 256 → t3 < 256 →
      BulkResponseGetCaptureState.getCaptureState
        ((((r.setByte 0 st).setByte 1 t1).setByte 2 t2).setByte 3 t3) = st ∧
      BulkResponseGetCaptureState.getTriggerPoint
        ((((r.setByte 0 st).setByte 1 t1).setByte 2 t2).setByte 3 t3)
        = t2 + t3 * 256 + t1 * 65536) := by
  refine ⟨rfl, ?_⟩
  intro r st t1 t2 t3 hst h1 h2 h3
  constructor
  · simp only [BulkResponseGetCaptureState.getCaptureState, DataArray.setByte]
    norm_num; omega
  · simp only [BulkResponseGetCaptureState.getTriggerPoint, DataArray.setByte]
    norm_num; omega

/-- Witness for C2: the spec's concrete scenario, a response starting
0x02, 0xAB, 0x34, 0x12 decodes to state Sampling and trigger point
0xAB1234. -/
theorem c2_capture_state_decode_witness :
    BulkResponseGetCaptureState.getCaptureState exampleCaptureResponse
      = CAPTURE_SAMPLING ∧
    BulkResponseGetCaptureState.getTriggerPoint exampleCaptureResponse = 0xAB1234 := by
  have h := c2_capture_state_decode.2 BulkResponseGetCaptureState.empty
    0x02 0xAB 0x34 0x12 (by decide) (by decide) (by decide) (by decide)
  refine ⟨h.1, ?_⟩
  have h2 := h.2
  norm_num at h2
  exact h2

/-- C3: setTriggerPosition places the low byte of the 24-bit position at
offset 6, the middle byte at offset 7 and the high byte at offset 10, and
getTriggerPosition recovers the position. -/
theorem c3_trigger_position_split (d : DataArray) (p : Nat) (hp : p < 0x1000000) :
    (BulkSetTriggerAndSamplerate.setTriggerPosition d p).array 6 = p % 256 ∧
    (BulkSetTriggerAndSamplerate.setTriggerPosition d p).array 7 = p / 256 % 256 ∧
    (BulkSetTriggerAndSamplerate.setTriggerPosition d p).array 10 = p / 65536 ∧
    BulkSetTriggerAndSamplerate.getTriggerPosition
      (BulkSetTriggerAndSamplerate.setTriggerPosition d p) = p := by
  refine ⟨?_, ?_, ?_, ?_⟩ <;>
    simp only [BulkSetTriggerAndSamplerate.getTriggerPosition,
      BulkSetTriggerAndSamplerate.setTriggerPosition, DataArray.setByte] <;>
    norm_num <;> omega

/-- Witness for C3: the spec's concrete scenario, position 0xAABBCC puts
0xCC at offset 6, 0xBB at offset 7, 0xAA at offset 10, and the getter
returns 0xAABBCC. -/
theorem c3_trigger_position_split_witness :
    (BulkSetTriggerAndSamplerate.setTriggerPosition
      BulkSetTriggerAndSamplerate.empty 0xAABBCC).array 6 = 0xCC ∧
    (BulkSetTriggerAndSamplerate.setTriggerPosition
      BulkSetTriggerAndSamplerate.empty 0xAABBCC).array 7 = 0xBB ∧
    (BulkSetTriggerAndSamplerate.setTriggerPosition
      BulkSetTriggerAndSamplerate.empty 0xAABBCC).array 10 = 0xAA ∧
    BulkSetTriggerAndSamplerate.getTriggerPosition
      (BulkSetTriggerAndSamplerate.setTriggerPosition
        BulkSetTriggerAndSamplerate.empty 0xAABBCC) = 0xAABBCC := by
  have h := c3_trigger_position_split BulkSetTriggerAndSamplerate.empty 0xAABBCC
    (by norm_num)
  norm_num at h
  exact h

/-- C4: every sequence of setter calls preserves the initializer bytes:
offsets 5 and 9 of a BulkSetBuffer5200 frame stay 0xff (in particular
after the constructor with pre = 0x1234 and post = 0x5678), and offset 4
of a BulkSetTrigger5200 frame stays 0x02. -/
theorem c4_sentinel_preservation :
    (∀ (d : DataArray) (ops : List Buffer5200Op),
      (applyBuffer5200Ops ops d).array 5 = d.array 5 ∧
      (applyBuffer5200Ops ops d).array 9 = d.array 9) ∧
    (∀ (pre post upre upost rl : Nat) (ops : List Buffer5200Op),
      (applyBuffer5200Ops ops (BulkSetBuffer5200.build pre post upre upost rl)).array 5
        = 0xff ∧
      (applyBuffer5200Ops ops (BulkSetBuffer5200.build pre post upre upost rl)).array 9
        = 0xff) ∧
    ((BulkSetBuffer5200.build 0x1234 0x5678 0 0 0).array 5 = 0xff ∧
     (BulkSetBuffer5200.build 0x1234 0x5678 0 0 0).array 9 = 0xff) ∧
    (∀ (d : DataArray) (ops : List Trigger5200Op),
      (applyTrigger5200Ops ops d).array 4 = d.array 4) ∧
    (∀ (ts uc : Nat) (fr : Bool) (slope : Nat) (pulse : Bool) (ops : List Trigger5200Op),
      (applyTrigger5200Ops ops (BulkSetTrigger5200.build ts uc fr slope pulse)).array 4
        = 0x02) := by
  have hbuild5 : ∀ pre post upre upost rl : Nat,
      (BulkSetBuffer5200.build pre post upre upost rl).array 5 = 0xff ∧
      (BulkSetBuffer5200.build pre post upre upost rl).array 9 = 0xff := by
    intro pre post upre upost rl
    constructor <;>
      simp [BulkSetBuffer5200.build, BulkSetBuffer5200.init, BulkSetBuffer5200.empty,
        BulkSetBuffer5200.setTriggerPositionPre, BulkSetBuffer5200.setTriggerPositionPost,
        BulkSetBuffer5200.setUsedPre, BulkSetBuffer5200.setUsedPost,
        BulkSetBuffer5200.setRecordLength, DataArray.setByte]
  have hbuildT : ∀ (ts uc : Nat) (fr : Bool) (slope : Nat) (pulse : Bool),
      (BulkSetTrigger5200.build ts uc fr slope pulse).array 4 = 0x02 := by
    intro ts uc fr slope pulse
    simp [BulkSetTrigger5200.build, BulkSetTrigger5200.init, BulkSetTrigger5200.empty,
      BulkSetTrigger5200.setTriggerSource, BulkSetTrigger5200.setUsedChannels,
      BulkSetTrigger5200.setFastRate, BulkSetTrigger5200.setTriggerSlope,
      BulkSetTrigger5200.setTriggerPulse, DataArray.setByte]
  refine ⟨fun d ops => applyBuffer5200Ops_preserves ops d, ?_, ?_, ?_, ?_⟩
  · intro pre post upre upost rl ops
    have h := applyBuffer5200Ops_preserves ops (BulkSetBuffer5200.build pre post upre upost rl)
    have hb := hbuild5 pre post upre upost rl
    exact ⟨h.1.trans hb.1, h.2.trans hb.2⟩
  · exact hbuild5 0x1234 0x5678 0 0 0
  · exact fun d ops => applyTrigger5200Ops_preserves ops d
  · intro ts uc fr slope pulse ops
    exact (applyTrigger5200Ops_preserves ops _).trans (hbuildT ts uc fr slope pulse)

/-- C9: the two-argument BulkSetBuffer2250 constructor yields a 12-byte
frame while the default constructor yields a 10-byte frame, so the two
constructors of the same frame type produce frames of different lengths. -/
theorem c9_buffer2250_lengths :
    BulkSetBuffer2250.empty.getSize = 10 ∧
    (∀ pre post : Nat, (BulkSetBuffer2250.build pre post).getSize = 12) ∧
    (∀ pre post : Nat,
      (BulkSetBuffer2250.build pre post).getSize ≠ BulkSetBuffer2250.empty.getSize) := by
  refine ⟨rfl, fun _ _ => rfl, ?_⟩
  intro pre post
  have h1 : (BulkSetBuffer2250.build pre post).getSize = 12 := rfl
  have h2 : BulkSetBuffer2250.empty.getSize = 10 := rfl
  omega

/-- C10: BulkSetTrigger5200 stores the fastRate flag inverted on the wire
(bit value 0 for true, 1 for false), the getter is true exactly when the
stored bit is 0, and set-then-get still returns the flag unchanged. -/
theorem c10_trigger5200_fastrate_inverted :
    (∀ (d : DataArray) (b : Bool),
      getBits ((BulkSetTrigger5200.setFastRate d b).array 2) 0 1
        = (if b then 0 else 1)) ∧
    (∀ (d : DataArray),
      BulkSetTrigger5200.getFastRate d = true ↔ getBits (d.array 2) 0 1 = 0) ∧
    (∀ (d : DataArray) (b : Bool),
      BulkSetTrigger5200.getFastRate (BulkSetTrigger5200.setFastRate d b) = b) := by
  refine ⟨?_, ?_, ?_⟩
  · intro d b
    cases b <;>
      simp only [BulkSetTrigger5200.setFastRate, DataArray.setByte, getBits, setBits] <;>
      norm_num <;> omega
  · intro d
    simp [BulkSetTrigger5200.getFastRate]
  · intro d b
    cases b <;>
      simp only [BulkSetTrigger5200.getFastRate, BulkSetTrigger5200.setFastRate,
        DataArray.setByte, getBits, setBits] <;>
      norm_num <;> omega

/-- The retry loop stops at the first non-timeout outcome: with k timeouts
and then a non-timeout at call k (all within the attempt budget), it makes
exactly k+1 calls and yields that outcome. -/
theorem retryAux_stop (oracle : Oracle) (ev : TransferEvent) (len : Nat)
    (attempts : Int) :
    ∀ (k fuel attempt : Nat) (s : USBDevice),
      (∀ j, j < k → (oracle (s.idx + j) len).code = LIBUSB_ERROR_TIMEOUT) →
      (oracle (s.idx + k) len).code ≠ LIBUSB_ERROR_TIMEOUT →
      (∀ j, j ≤ k → (((attempt + j : Nat) : Int) < attempts ∨ attempts = -1)) →
      k < fuel →
      retryAux oracle ev len attempts fuel attempt s =
        some (oracle (s.idx + k) len,
          { s with idx := s.idx + (k + 1),
                   events := s.events ++ List.replicate (k + 1) ev }) := by
  intro k
  induction k with
  | zero =>
    intro fuel attempt s hto hstop hguard hfuel
    obtain ⟨f, rfl⟩ : ∃ f, fuel = f + 1 := ⟨fuel - 1, by omega⟩
    rw [retryAux.eq_def]
    have hg : ((attempt : Int) < attempts ∨ attempts = -1) := by
      simpa using hguard 0 (le_refl 0)
    rw [if_pos hg]
    simp only [doCall]
    rw [if_neg (by simpa using hstop)]
    simp
  | succ k ih =>
    intro fuel attempt s hto hstop hguard hfuel
    obtain ⟨f, rfl⟩ : ∃ f, fuel = f + 1 := ⟨fuel - 1, by omega⟩
    rw [retryAux.eq_def]
    have hg : ((attempt : Int) < attempts ∨ attempts = -1) := by
      simpa using hguard 0 (by omega)
    rw [if_pos hg]
    simp only [doCall]
    rw [if_pos (by simpa using hto 0 (by omega))]
    have hrec := ih f (attempt + 1)
      { s with idx := s.idx + 1, events := s.events ++ [ev] }
      (by
        intro j hj
        have e : s.idx + 1 + j = s.idx + (j + 1) := by omega
        simpa [e] using hto (j + 1) (by omega))
      (by
        have e : s.idx + 1 + k = s.idx + (k + 1) := by omega
        simpa [e] using hstop)
      (by
        intro j hj
        have e : attempt + 1 + j = attempt + (j + 1) := by omega
        simpa [e] using hguard (j + 1) (by omega))
      (by omega)
    rw [hrec]
    have h1 : s.idx + 1 + k = s.idx + (k + 1) := by omega
    have h2 : s.idx + 1 + (k + 1) = s.idx + (k + 1 + 1) := by omega
    have h3 : (s.events ++ [ev]) ++ List.replicate (k + 1) ev
        = s.events ++ List.replicate (k + 1 + 1) ev := by
      rw [List.append_assoc, List.singleton_append, ← List.replicate_succ]
    simp [h1, h2, h3]

/-- With a non-negative attempt budget and nothing but timeouts, the retry
loop makes exactly the budgeted number of calls and reports the timeout. -/
theorem retryAux_exhaust (oracle : Oracle) (ev : TransferEvent) (len : Nat)
    (attempts : Int) (h0 : 0 ≤ attempts) :
    ∀ (n fuel attempt : Nat) (s : USBDevice),
      (attempt : Int) + n = attempts →
      (∀ j, j < n → (oracle (s.idx + j) len).code = LIBUSB_ERROR_TIMEOUT) →
      n ≤ fuel →
      retryAux oracle ev len attempts fuel attempt s =
        some (⟨LIBUSB_ERROR_TIMEOUT, 0, 0⟩,
          { s with idx := s.idx + n, events := s.events ++ List.replicate n ev }) := by
  intro n
  induction n with
  | zero =>
    intro fuel attempt s hsum hto hfuel
    rw [retryAux.eq_def]
    rw [if_neg (by omega)]
    simp
  | succ n ih =>
    intro fuel attempt s hsum hto hfuel
    obtain ⟨f, rfl⟩ : ∃ f, fuel = f + 1 := ⟨fuel - 1, by omega⟩
    rw [retryAux.eq_def]
    rw [if_pos (by left; omega)]
    simp only [doCall]
    rw [if_pos (by simpa using hto 0 (by omega))]
    have hrec := ih f (attempt + 1)
      { s with idx := s.idx + 1, events := s.events ++ [ev] }
      (by push_cast; push_cast at hsum; omega)
      (by
        intro j hj
        have e : s.idx + 1 + j = s.idx + (j + 1) := by omega
        simpa [e] using hto (j + 1) (by omega))
      (by omega)
    rw [hrec]
    have h2 : s.idx + 1 + n = s.idx + (n + 1) := by omega
    have h3 : (s.events ++ [ev]) ++ List.replicate n ev
        = s.events ++ List.replicate (n + 1) ev := by
      rw [List.append_assoc, List.singleton_append, ← List.replicate_succ]
    simp [h2, h3]

/-- For a negative attempt budget other than -1 the retry loop performs no
call at all and reports a timeout. -/
theorem retryAux_neg (oracle : Oracle) (ev : TransferEvent) (len : Nat)
    (attempts : Int) (fuel : Nat) (s : USBDevice) (hneg : attempts < 0)
    (hne : attempts ≠ -1) :
    retryAux oracle ev len attempts fuel 0 s
      = some (⟨LIBUSB_ERROR_TIMEOUT, 0, 0⟩, s) := by
  rw [retryAux.eq_def]
  rw [if_neg (by push_cast; omega)]

/-- C7 (amended): bulkTransfer retries while the outcome is Timeout, for
at most attempts tries when attempts is non-negative; it retries until the
first non-timeout outcome when attempts = -1; for every other negative
attempts value it performs no transfer at all and returns Timeout; on a
NoDevice outcome the session transitions to disconnected; it returns the
transferred byte count on success and the underlying error code
otherwise. -/
theorem c7_bulk_transfer_retry :
    (∀ (oracle : Oracle) (endpoint len : Nat) (attempts : Int) (fuel : Nat)
        (s : USBDevice), s.handle = false →
      bulkTransfer oracle endpoint len attempts fuel s
        = some (LIBUSB_ERROR_NO_DEVICE, s)) ∧
    (∀ (oracle : Oracle) (endpoint len : Nat) (attempts : Int) (fuel : Nat)
        (s : USBDevice) (k : Nat), s.handle = true →
      (∀ j, j < k → (oracle (s.idx + j) len).code = LIBUSB_ERROR_TIMEOUT) →
      (oracle (s.idx + k) len).code ≠ LIBUSB_ERROR_TIMEOUT →
      (∀ j, j ≤ k → ((j : Int) < attempts ∨ attempts = -1)) →
      k < fuel →
      0 ≤ (oracle (s.idx + k) len).code →
      bulkTransfer oracle endpoint len attempts fuel s
        = some (((oracle (s.idx + k) len).transferred : Int),
            { s with idx := s.idx + (k + 1),
                     events := s.events
                       ++ List.replicate (k + 1) (TransferEvent.bulk endpoint) })) ∧
    (∀ (oracle : Oracle) (endpoint len : Nat) (attempts : Int) (fuel : Nat)
        (s : USBDevice) (k : Nat), s.handle = true →
      (∀ j, j < k → (oracle (s.idx + j) len).code = LIBUSB_ERROR_TIMEOUT) →
      (oracle (s.idx + k) len).code ≠ LIBUSB_ERROR_TIMEOUT →
      (∀ j, j ≤ k → ((j : Int) < attempts ∨ attempts = -1)) →
      k < fuel →
      (oracle (s.idx + k) len).code < 0 →
      bulkTransfer oracle endpoint len attempts fuel s
        = some ((oracle (s.idx + k) len).code,
            if (oracle (s.idx + k) len).code = LIBUSB_ERROR_NO_DEVICE then
              connectionLost
                { s with idx := s.idx + (k + 1),
                         events := s.events
                           ++ List.replicate (k + 1) (TransferEvent.bulk endpoint) }
            else
              { s with idx := s.idx + (k + 1),
                       events := s.events
                         ++ List.replicate (k + 1) (TransferEvent.bulk endpoint) })) ∧
    (∀ (oracle : Oracle) (endpoint len : Nat) (attempts : Int) (fuel : Nat)
        (s : USBDevice) (k : Nat), s.handle = true →
      (∀ j, j < k → (oracle (s.idx + j) len).code = LIBUSB_ERROR_TIMEOUT) →
      (∀ j, j ≤ k → ((j : Int) < attempts ∨ attempts = -1)) →
      k < fuel →
      (oracle (s.idx + k) len).code = LIBUSB_ERROR_NO_DEVICE →
      ∃ s1, bulkTransfer oracle endpoint len attempts fuel s
          = some (LIBUSB_ERROR_NO_DEVICE, s1) ∧ s1.handle = false) ∧
    (∀ (oracle : Oracle) (endpoint len : Nat) (attempts : Int) (fuel : Nat)
        (s : USBDevice), s.handle = true → 0 ≤ attempts →
      (∀ j, j < attempts.toNat → (oracle (s.idx + j) len).code = LIBUSB_ERROR_TIMEOUT) →
      attempts.toNat ≤ fuel →
      bulkTransfer oracle endpoint len attempts fuel s
        = some (LIBUSB_ERROR_TIMEOUT,
            { s with idx := s.idx + attempts.toNat,
                     events := s.events
                       ++ List.replicate attempts.toNat (TransferEvent.bulk endpoint) })) ∧
    (∀ (oracle : Oracle) (endpoint len : Nat) (attempts : Int) (fuel : Nat)
        (s : USBDevice), s.handle = true → attempts < -1 →
      bulkTransfer oracle endpoint len attempts fuel s
        = some (LIBUSB_ERROR_TIMEOUT, s)) := by
  have hndlt : LIBUSB_ERROR_NO_DEVICE < 0 := by decide
  have htolt : LIBUSB_ERROR_TIMEOUT < 0 := by decide
  refine ⟨?_, ?_, ?_, ?_, ?_, ?_⟩
  · intro oracle endpoint len attempts fuel s hh
    simp [bulkTransfer, hh]
  · intro oracle endpoint len attempts fuel s k hh hto hstop hg hf hpos
    have hrw := retryAux_stop oracle (.bulk endpoint) len attempts k fuel 0 s hto hstop
      (by intro j hj; simpa using hg j hj) hf
    have h1 : ¬((oracle (s.idx + k) len).code = LIBUSB_ERROR_NO_DEVICE) := by
      intro hc; rw [hc] at hpos; omega
    have h2 : ¬((oracle (s.idx + k) len).code < 0) := by omega
    simp [bulkTransfer, hh, hrw, h1, h2]
  · intro oracle endpoint len attempts fuel s k hh hto hstop hg hf hneg
    have hrw := retryAux_stop oracle (.bulk endpoint) len attempts k fuel 0 s hto hstop
      (by intro j hj; simpa using hg j hj) hf
    simp [bulkTransfer, hh, hrw, hneg]
  · intro oracle endpoint len attempts fuel s k hh hto hg hf hnd
    have hstop : (oracle (s.idx + k) len).code ≠ LIBUSB_ERROR_TIMEOUT := by
      rw [hnd]; decide
    have hrw := retryAux_stop oracle (.bulk endpoint) len attempts k fuel 0 s hto hstop
      (by intro j hj; simpa using hg j hj) hf
    refine ⟨connectionLost
      { s with idx := s.idx + (k + 1),
               events := s.events ++ List.replicate (k + 1) (TransferEvent.bulk endpoint) },
      ?_, ?_⟩
    · simp [bulkTransfer, hh, hrw, hnd, hndlt]
    · simp [connectionLost, hh]
  · intro oracle endpoint len attempts fuel s hh h0 hto hf
    have hrw := retryAux_exhaust oracle (.bulk endpoint) len attempts h0 attempts.toNat
      fuel 0 s (by push_cast; omega) hto hf
    have hne : LIBUSB_ERROR_TIMEOUT ≠ LIBUSB_ERROR_NO_DEVICE := by decide
    simp [bulkTransfer, hh, hrw, hne, htolt]
  · intro oracle endpoint len attempts fuel s hh hneg
    have hrw := retryAux_neg oracle (.bulk endpoint) len attempts fuel s (by omega)
      (by omega)
    have hne : LIBUSB_ERROR_TIMEOUT ≠ LIBUSB_ERROR_NO_DEVICE := by decide
    simp [bulkTransfer, hh, hrw, hne, htolt]

/-- Witness for C7: a device timing out once and then succeeding, with a
budget of 3 attempts: two transfers are issued and the 64 transferred
bytes are returned. -/
theorem c7_bulk_transfer_retry_witness :
    bulkTransfer oracleLate HANTEK_EP_IN 64 3 5 session0
      = some ((64 : Int),
          { session0 with
              idx := 2,
              events := [TransferEvent.bulk HANTEK_EP_IN,
                TransferEvent.bulk HANTEK_EP_IN] }) := by
  have h := c7_bulk_transfer_retry.2.1 oracleLate HANTEK_EP_IN 64 3 5 session0 1
    rfl
    (by intro j hj; rw [Nat.lt_one_iff.mp hj]; decide)
    (by decide)
    (by intro j hj; left; omega)
    (by omega)
    (by decide)
  simpa using h

/-- Counterexample for C7: with attempts = -2 (negative but not -1) and a
device whose first transfer would succeed at once, bulkTransfer performs
no transfer at all and returns Timeout, refuting the claim that every
negative attempts value retries until success or a non-timeout error. -/
theorem c7_counterexample :
    bulkTransfer oracleOk HANTEK_EP_OUT 16 (-2) 5 session0
      = some (LIBUSB_ERROR_TIMEOUT, session0) ∧
    (oracleOk 0 16).code = 0 ∧
    LIBUSB_ERROR_TIMEOUT ≠ (16 : Int) ∧
    session0.events = [] := by decide

/-- One-call instance of the retry loop: an immediate non-timeout outcome
means exactly one call. -/
theorem retryAux_one (oracle : Oracle) (ev : TransferEvent) (len : Nat)
    (attempts : Int) (fuel : Nat) (s : USBDevice)
    (hstop : (oracle s.idx len).code ≠ LIBUSB_ERROR_TIMEOUT)
    (hatt : (0 : Int) < attempts ∨ attempts = -1) (hfuel : 0 < fuel) :
    retryAux oracle ev len attempts fuel 0 s =
      some (oracle s.idx len,
        { s with idx := s.idx + 1, events := s.events ++ [ev] }) := by
  have h := retryAux_stop oracle ev len attempts 0 fuel 0 s
    (by intro j hj; exact absurd hj (Nat.not_lt_zero j))
    (by simpa using hstop)
    (by intro j hj; rw [Nat.le_zero.mp hj]; simpa using hatt)
    hfuel
  simpa using h

/-- Losing the connection does not change the transfer log. -/
theorem connectionLost_events (s : USBDevice) : (connectionLost s).events = s.events := by
  unfold connectionLost
  split <;> rfl

/-- A control transfer whose first outcome is not a timeout issues exactly
one transfer. -/
theorem controlTransfer_one (oracle : Oracle) (typ request len : Nat) (attempts : Int)
    (fuel : Nat) (s : USBDevice) (hh : s.handle = true)
    (hstop : (oracle s.idx len).code ≠ LIBUSB_ERROR_TIMEOUT)
    (hatt : (0 : Int) < attempts ∨ attempts = -1) (hfuel : 0 < fuel) :
    controlTransfer oracle typ request len attempts fuel s =
      some ((oracle s.idx len).code, (oracle s.idx len).data0,
        if (oracle s.idx len).code = LIBUSB_ERROR_NO_DEVICE then
          connectionLost
            { s with idx := s.idx + 1,
                     events := s.events ++ [TransferEvent.control typ request] }
        else
          { s with idx := s.idx + 1,
                   events := s.events ++ [TransferEvent.control typ request] }) := by
  have hr := retryAux_one oracle (.control typ request) len attempts fuel s hstop hatt hfuel
  simp [controlTransfer, hh, hr]

/-- A speed query whose control-in outcome is not a timeout issues exactly
one transfer; when its result is non-negative the session state is the
plain one-call advance. -/
theorem getConnectionSpeedOp_one (oracle : Oracle) (fuel : Nat) (s : USBDevice)
    (hh : s.handle = true)
    (hstop : (oracle s.idx 10).code ≠ LIBUSB_ERROR_TIMEOUT) (hfuel : 0 < fuel) :
    ∃ e s1, getConnectionSpeedOp oracle fuel s = some (e, s1) ∧
      s1.events = s.events ++ [TransferEvent.control
        (LIBUSB_REQUEST_TYPE_VENDOR + LIBUSB_ENDPOINT_IN) CONTROL_GETSPEED] ∧
      (0 ≤ e →
        s1 = { s with idx := s.idx + 1,
                      events := s.events ++ [TransferEvent.control
                        (LIBUSB_REQUEST_TYPE_VENDOR + LIBUSB_ENDPOINT_IN)
                        CONTROL_GETSPEED] }) := by
  have hct := controlTransfer_one oracle (LIBUSB_REQUEST_TYPE_VENDOR + LIBUSB_ENDPOINT_IN)
    CONTROL_GETSPEED 10 HANTEK_ATTEMPTS_DEFAULT fuel s hh hstop (by left; decide) hfuel
  by_cases hnd : (oracle s.idx 10).code = LIBUSB_ERROR_NO_DEVICE
  · have hcode : (oracle s.idx 10).code < 0 := by rw [hnd]; decide
    refine ⟨(oracle s.idx 10).code,
      connectionLost
        { s with idx := s.idx + 1,
                 events := s.events ++ [TransferEvent.control
                   (LIBUSB_REQUEST_TYPE_VENDOR + LIBUSB_ENDPOINT_IN) CONTROL_GETSPEED] },
      ?_, ?_, ?_⟩
    · simp [getConnectionSpeedOp, controlRead, hh, hct, hnd, hcode]
      intro he
      exact absurd he (by decide)
    · simp [connectionLost_events]
    · intro he
      rw [hnd] at he
      exact absurd he (by decide)
  · by_cases hcode : (oracle s.idx 10).code < 0
    · refine ⟨(oracle s.idx 10).code,
        { s with idx := s.idx + 1,
                 events := s.events ++ [TransferEvent.control
                   (LIBUSB_REQUEST_TYPE_VENDOR + LIBUSB_ENDPOINT_IN) CONTROL_GETSPEED] },
        ?_, rfl, ?_⟩
      · simp [getConnectionSpeedOp, controlRead, hh, hct, hnd, hcode]
      · intro he
        omega
    · refine ⟨((oracle s.idx 10).data0 : Int),
        { s with idx := s.idx + 1,
                 events := s.events ++ [TransferEvent.control
                   (LIBUSB_REQUEST_TYPE_VENDOR + LIBUSB_ENDPOINT_IN) CONTROL_GETSPEED] },
        ?_, rfl, fun _ => rfl⟩
      simp [getConnectionSpeedOp, controlRead, hh, hct, hnd, hcode]

/-- A bulk transfer whose first outcome is not a timeout issues exactly one
transfer; whatever the outcome, exactly one bulk event is logged. -/
theorem bulkTransfer_one_events (oracle : Oracle) (endpoint len : Nat) (attempts : Int)
    (fuel : Nat) (s : USBDevice) (hh : s.handle = true)
    (hstop : (oracle s.idx len).code ≠ LIBUSB_ERROR_TIMEOUT)
    (hatt : (0 : Int) < attempts ∨ attempts = -1) (hfuel : 0 < fuel) :
    ∃ r s1, bulkTransfer oracle endpoint len attempts fuel s = some (r, s1) ∧
      s1.events = s.events ++ [TransferEvent.bulk endpoint] := by
  have hr := retryAux_one oracle (.bulk endpoint) len attempts fuel s hstop hatt hfuel
  by_cases hnd : (oracle s.idx len).code = LIBUSB_ERROR_NO_DEVICE
  · have hcode : (oracle s.idx len).code < 0 := by rw [hnd]; decide
    refine ⟨(oracle s.idx len).code,
      connectionLost
        { s with idx := s.idx + 1,
                 events := s.events ++ [TransferEvent.bulk endpoint] }, ?_, ?_⟩
    · simp [bulkTransfer, hh, hr, hnd, hcode]
      intro he
      exact absurd he (by decide)
    · simp [connectionLost_events]
  · by_cases hcode : (oracle s.idx len).code < 0
    · refine ⟨(oracle s.idx len).code,
        { s with idx := s.idx + 1,
                 events := s.events ++ [TransferEvent.bulk endpoint] }, ?_, rfl⟩
      simp [bulkTransfer, hh, hr, hnd, hcode]
    · refine ⟨((oracle s.idx len).transferred : Int),
        { s with idx := s.idx + 1,
                 events := s.events ++ [TransferEvent.bulk endpoint] }, ?_, rfl⟩
      simp [bulkTransfer, hh, hr, hnd, hcode]

/-- C5 (amended): when bulk transfers are administratively disabled,
bulkCommand returns success without any control or bulk I/O; otherwise it
issues the bulk write of the frame body only after the BEGIN_COMMAND
control write, and the only transfer between the two is the connection
speed control read that bulkWrite performs before every bulk transfer. -/
theorem c5_bulk_command_preamble :
    (∀ (oracle : Oracle) (commandSize : Nat) (attempts : Int) (fuel : Nat)
        (s : USBDevice), s.handle = true → s.allowBulkTransfer = false →
      bulkCommand oracle commandSize attempts fuel s = some (LIBUSB_SUCCESS, s)) ∧
    (∀ (oracle : Oracle) (commandSize : Nat) (attempts : Int) (fuel : Nat)
        (s : USBDevice), s.handle = false →
      bulkCommand oracle commandSize attempts fuel s
        = some (LIBUSB_ERROR_NO_DEVICE, s)) ∧
    (∀ (oracle : Oracle) (commandSize : Nat) (attempts : Int) (fuel : Nat)
        (s : USBDevice), s.handle = true → s.allowBulkTransfer = true →
      (∀ i l, (oracle i l).code ≠ LIBUSB_ERROR_TIMEOUT) →
      ((0 : Int) < attempts ∨ attempts = -1) → 0 < fuel →
      ∃ r s1, bulkCommand oracle commandSize attempts fuel s = some (r, s1) ∧
        (s1.events = s.events
            ++ [TransferEvent.control LIBUSB_REQUEST_TYPE_VENDOR CONTROL_BEGINCOMMAND] ∨
         s1.events = s.events
            ++ [TransferEvent.control LIBUSB_REQUEST_TYPE_VENDOR CONTROL_BEGINCOMMAND,
                TransferEvent.control (LIBUSB_REQUEST_TYPE_VENDOR + LIBUSB_ENDPOINT_IN)
                  CONTROL_GETSPEED] ∨
         s1.events = s.events
            ++ [TransferEvent.control LIBUSB_REQUEST_TYPE_VENDOR CONTROL_BEGINCOMMAND,
                TransferEvent.control (LIBUSB_REQUEST_TYPE_VENDOR + LIBUSB_ENDPOINT_IN)
                  CONTROL_GETSPEED,
                TransferEvent.bulk HANTEK_EP_OUT])) := by
  refine ⟨?_, ?_, ?_⟩
  · intro oracle commandSize attempts fuel s hh hallow
    simp [bulkCommand, hh, hallow]
  · intro oracle commandSize attempts fuel s hh
    simp [bulkCommand, hh]
  · intro oracle commandSize attempts fuel s hh hallow hnt hatt hfuel
    have hcw := controlTransfer_one oracle LIBUSB_REQUEST_TYPE_VENDOR CONTROL_BEGINCOMMAND
      10 HANTEK_ATTEMPTS_DEFAULT fuel s hh (hnt _ _) (by left; decide) hfuel
    by_cases h1 : (oracle s.idx 10).code < 0
    · by_cases hnd : (oracle s.idx 10).code = LIBUSB_ERROR_NO_DEVICE
      · refine ⟨(oracle s.idx 10).code,
          connectionLost
            { s with idx := s.idx + 1,
                     events := s.events ++ [TransferEvent.control
                       LIBUSB_REQUEST_TYPE_VENDOR CONTROL_BEGINCOMMAND] },
          ?_, Or.inl ?_⟩
        · simp [bulkCommand, controlWrite, hh, hallow, hcw, hnd, h1]
          intro he
          exact absurd he (by decide)
        · simp [connectionLost_events]
      · refine ⟨(oracle s.idx 10).code,
          { s with idx := s.idx + 1,
                   events := s.events ++ [TransferEvent.control
                     LIBUSB_REQUEST_TYPE_VENDOR CONTROL_BEGINCOMMAND] },
          ?_, Or.inl rfl⟩
        simp [bulkCommand, controlWrite, hh, hallow, hcw, hnd, h1]
    · have hnd : ¬((oracle s.idx 10).code = LIBUSB_ERROR_NO_DEVICE) := by
        intro hc
        rw [hc] at h1
        exact h1 (by decide)
      have hgs := getConnectionSpeedOp_one oracle fuel
        { s with idx := s.idx + 1,
                 events := s.events ++ [TransferEvent.control
                   LIBUSB_REQUEST_TYPE_VENDOR CONTROL_BEGINCOMMAND] }
        hh (hnt _ _) hfuel
      obtain ⟨e2, s2, hgse, hgsev, hgspos⟩ := hgs
      simp only [hh, hallow] at hgse hgspos
      by_cases h2 : e2 < 0
      · refine ⟨e2, s2, ?_, Or.inr (Or.inl ?_)⟩
        · simp [bulkCommand, controlWrite, bulkWrite, hh, hallow, hcw, hnd, h1, hgse, h2]
        · rw [hgsev]
          simp
      · have hs2 := hgspos (by omega)
        have hs2h : s2.handle = true := by rw [hs2]
        have hbt := bulkTransfer_one_events oracle HANTEK_EP_OUT commandSize attempts fuel
          s2 hs2h (hnt _ _) hatt hfuel
        obtain ⟨r3, s3, hbte, hbtev⟩ := hbt
        refine ⟨r3, s3, ?_, Or.inr (Or.inr ?_)⟩
        · simp [bulkCommand, controlWrite, bulkWrite, hh, hallow, hcw, hnd, h1, hgse,
            h2, hbte]
        · rw [hbtev, hgsev]
          simp

/-- Witness for C5: a run against an always-succeeding device shows the
three-transfer shape with the bulk write last. -/
theorem c5_bulk_command_preamble_witness :
    ∃ r s1, bulkCommand oracleOk 10 1 5 session0 = some (r, s1) ∧
      (s1.events = session0.events
          ++ [TransferEvent.control LIBUSB_REQUEST_TYPE_VENDOR CONTROL_BEGINCOMMAND] ∨
       s1.events = session0.events
          ++ [TransferEvent.control LIBUSB_REQUEST_TYPE_VENDOR CONTROL_BEGINCOMMAND,
              TransferEvent.control (LIBUSB_REQUEST_TYPE_VENDOR + LIBUSB_ENDPOINT_IN)
                CONTROL_GETSPEED] ∨
       s1.events = session0.events
          ++ [TransferEvent.control LIBUSB_REQUEST_TYPE_VENDOR CONTROL_BEGINCOMMAND,
              TransferEvent.control (LIBUSB_REQUEST_TYPE_VENDOR + LIBUSB_ENDPOINT_IN)
                CONTROL_GETSPEED,
              TransferEvent.bulk HANTEK_EP_OUT]) :=
  c5_bulk_command_preamble.2.2 oracleOk 10 1 5 session0 rfl rfl
    (fun i l => by show (0 : Int) ≠ LIBUSB_ERROR_TIMEOUT; decide)
    (by left; decide) (by decide)

/-- Counterexample for C5: in a successful bulkCommand run the transfer
log is BEGIN_COMMAND control write, then the GETSPEED control read, then
the bulk write: a transfer does sit between the BEGIN_COMMAND control
write and the bulk write, refuting the claim's "with no other transfer in
between". -/
theorem c5_counterexample :
    bulkCommand oracleOk 10 1 5 session0
      = some (10, { session0 with
                    idx := 3,
                    events := [TransferEvent.control LIBUSB_REQUEST_TYPE_VENDOR
                        CONTROL_BEGINCOMMAND,
                      TransferEvent.control (LIBUSB_REQUEST_TYPE_VENDOR + LIBUSB_ENDPOINT_IN)
                        CONTROL_GETSPEED,
                      TransferEvent.bulk HANTEK_EP_OUT] }) ∧
    TransferEvent.control (LIBUSB_REQUEST_TYPE_VENDOR + LIBUSB_ENDPOINT_IN) CONTROL_GETSPEED
      ≠ TransferEvent.control LIBUSB_REQUEST_TYPE_VENDOR CONTROL_BEGINCOMMAND ∧
    TransferEvent.control (LIBUSB_REQUEST_TYPE_VENDOR + LIBUSB_ENDPOINT_IN) CONTROL_GETSPEED
      ≠ TransferEvent.bulk HANTEK_EP_OUT := by decide

/-- A bulk transfer against a device that supplies every request in full:
one call, returning the requested length. -/
theorem bulkTransfer_full (oracle : Oracle) (endpoint len : Nat) (attempts : Int)
    (fuel : Nat) (s : USBDevice) (hh : s.handle = true)
    (hfull : ∀ i l, (oracle i l).code = 0 ∧ (oracle i l).transferred = l)
    (hatt : (0 : Int) < attempts ∨ attempts = -1) (hfuel : 0 < fuel) :
    bulkTransfer oracle endpoint len attempts fuel s =
      some ((len : Int),
        { s with idx := s.idx + 1,
                 events := s.events ++ [TransferEvent.bulk endpoint] }) := by
  have hone := retryAux_one oracle (.bulk endpoint) len attempts fuel s
    (by rw [(hfull _ _).1]; decide) hatt hfuel
  have h0 := hfull s.idx len
  simp [bulkTransfer, hh, hone, h0.1, h0.2]
  intro he
  exact absurd he (by decide)

/-- The packet loop under full supply: starting below the total length it
reads ceil((L - received)/P) more full packets and accumulates exactly L
bytes. -/
theorem bulkReadMultiAux_full (oracle : Oracle) (L : Nat) (attempts : Int)
    (P retryFuel : Nat) (hP : 0 < P)
    (hatt : (0 : Int) < attempts ∨ attempts = -1) (hrf : 0 < retryFuel)
    (hfull : ∀ i l, (oracle i l).code = 0 ∧ (oracle i l).transferred = l) :
    ∀ (fuel received : Nat) (s : USBDevice), s.handle = true → received < L →
      (L - received + P - 1) / P ≤ fuel →
      ∃ e, bulkReadMultiAux oracle L attempts P retryFuel fuel received (P : Int) s =
        some (e, L,
          { s with idx := s.idx + (L - received + P - 1) / P,
                   events := s.events ++ List.replicate ((L - received + P - 1) / P)
                     (TransferEvent.bulk HANTEK_EP_IN) }) := by
  intro fuel
  induction fuel with
  | zero =>
    intro received s hh hrec hn
    have h1 : 1 ≤ (L - received + P - 1) / P :=
      (Nat.one_le_div_iff hP).mpr (by omega)
    exact absurd (le_trans h1 hn) (by decide)
  | succ f ih =>
    intro received s hh hrec hn
    rw [bulkReadMultiAux.eq_def]
    rw [if_pos ⟨hrec, rfl⟩]
    have hbt := bulkTransfer_full oracle HANTEK_EP_IN (min (L - received) P) attempts
      retryFuel s hh hfull hatt hrf
    by_cases hm : L - received ≤ P
    · -- last packet: it completes the read
      have hmin : min (L - received) P = L - received := Nat.min_eq_left hm
      have hn1 : (L - received + P - 1) / P = 1 := by
        have e1 : L - received + P - 1 = (L - received - 1) + P := by omega
        rw [e1, Nat.add_div_right _ hP, Nat.div_eq_of_lt (by omega)]
      refine ⟨((L - received : Nat) : Int), ?_⟩
      simp only [hbt]
      rw [hmin]
      have hpos : (0 : Int) < ((L - received : Nat) : Int) := by
        have h2 : 0 < L - received := by omega
        exact_mod_cast h2
      rw [if_pos hpos]
      rw [bulkReadMultiAux.eq_def]
      have hfin : received + ((L - received : Nat) : Int).toNat = L := by omega
      rw [hfin]
      rw [if_neg (fun hcon => absurd hcon.1 (lt_irrefl L))]
      rw [hn1]
      simp
    · -- a full middle packet
      have hmin : min (L - received) P = P := Nat.min_eq_right (by omega)
      have harith : (L - received + P - 1) / P = (L - (received + P) + P - 1) / P + 1 := by
        have e1 : L - received + P - 1 = (L - (received + P) + P - 1) + P := by omega
        rw [e1, Nat.add_div_right _ hP]
      obtain ⟨e, hrec'⟩ := ih (received + P)
        { s with idx := s.idx + 1,
                 events := s.events ++ [TransferEvent.bulk HANTEK_EP_IN] }
        hh (by omega)
        (by
          have h4 := hn
          rw [harith] at h4
          exact Nat.succ_le_succ_iff.mp h4)
      refine ⟨e, ?_⟩
      simp only [hbt]
      rw [hmin]
      have hpos : (0 : Int) < ((P : Nat) : Int) := by exact_mod_cast hP
      rw [if_pos hpos]
      have hfin : received + ((P : Nat) : Int).toNat = received + P := by omega
      rw [hfin]
      rw [hrec']
      have h2 : s.idx + 1 + (L - (received + P) + P - 1) / P
          = s.idx + (L - received + P - 1) / P := by
        rw [harith]
        ring
      have h3 : (s.events ++ [TransferEvent.bulk HANTEK_EP_IN])
            ++ List.replicate ((L - (received + P) + P - 1) / P)
              (TransferEvent.bulk HANTEK_EP_IN)
          = s.events ++ List.replicate ((L - received + P - 1) / P)
              (TransferEvent.bulk HANTEK_EP_IN) := by
        rw [List.append_assoc, List.singleton_append, ← List.replicate_succ, harith]
      simp [h2, h3]

/-- The value a single-call bulk transfer returns: the error code when
negative, the transferred count otherwise. -/
theorem bulkTransfer_one_value (oracle : Oracle) (endpoint len : Nat) (attempts : Int)
    (fuel : Nat) (s : USBDevice) (hh : s.handle = true)
    (hstop : (oracle s.idx len).code ≠ LIBUSB_ERROR_TIMEOUT)
    (hatt : (0 : Int) < attempts ∨ attempts = -1) (hfuel : 0 < fuel) :
    ∃ s1, bulkTransfer oracle endpoint len attempts fuel s =
      some ((if (oracle s.idx len).code < 0 then (oracle s.idx len).code
        else ((oracle s.idx len).transferred : Int)), s1) ∧
      s1.events = s.events ++ [TransferEvent.bulk endpoint] := by
  have hr := retryAux_one oracle (.bulk endpoint) len attempts fuel s hstop hatt hfuel
  by_cases hcode : (oracle s.idx len).code < 0
  · by_cases hnd : (oracle s.idx len).code = LIBUSB_ERROR_NO_DEVICE
    · refine ⟨connectionLost
        { s with idx := s.idx + 1,
                 events := s.events ++ [TransferEvent.bulk endpoint] }, ?_, ?_⟩
      · simp [bulkTransfer, hh, hr, hnd, hcode]
        simp [show LIBUSB_ERROR_NO_DEVICE < 0 from by decide]
      · simp [connectionLost_events]
    · refine ⟨{ s with idx := s.idx + 1,
                       events := s.events ++ [TransferEvent.bulk endpoint] }, ?_, rfl⟩
      simp [bulkTransfer, hh, hr, hnd, hcode]
  · have hnd : ¬((oracle s.idx len).code = LIBUSB_ERROR_NO_DEVICE) := by
      intro hc
      rw [hc] at hcode
      exact hcode (by decide)
    refine ⟨{ s with idx := s.idx + 1,
                     events := s.events ++ [TransferEvent.bulk endpoint] }, ?_, rfl⟩
    simp [bulkTransfer, hh, hr, hnd, hcode]

/-- The packet loop skips past k full P-sized packets, accumulating k*P
bytes and logging k bulk-in transfers. -/
theorem bulkReadMultiAux_skip (oracle : Oracle) (L : Nat) (attempts : Int)
    (P retryFuel : Nat) (hP : 0 < P)
    (hatt : (0 : Int) < attempts ∨ attempts = -1) (hrf : 0 < retryFuel) :
    ∀ (k fuel received : Nat) (s : USBDevice), s.handle = true →
      (∀ j, j < k → (oracle (s.idx + j) P).code = 0 ∧
        (oracle (s.idx + j) P).transferred = P) →
      received + k * P + P ≤ L →
      k ≤ fuel →
      bulkReadMultiAux oracle L attempts P retryFuel fuel received (P : Int) s =
        bulkReadMultiAux oracle L attempts P retryFuel (fuel - k) (received + k * P)
          (P : Int)
          { s with idx := s.idx + k,
                   events := s.events
                     ++ List.replicate k (TransferEvent.bulk HANTEK_EP_IN) } := by
  intro k
  induction k with
  | zero =>
    intro fuel received s hh hfk hbound hkf
    simp
  | succ k ih =>
    intro fuel received s hh hfk hbound hkf
    obtain ⟨f, rfl⟩ : ∃ f, fuel = f + 1 := ⟨fuel - 1, by omega⟩
    have hsm : (k + 1) * P = k * P + P := Nat.succ_mul k P
    rw [bulkReadMultiAux.eq_def]
    rw [if_pos ⟨by omega, rfl⟩]
    have hreq : min (L - received) P = P := Nat.min_eq_right (by omega)
    rw [hreq]
    have h00 : (oracle s.idx P).code = 0 ∧ (oracle s.idx P).transferred = P := by
      simpa using hfk 0 (by omega)
    have hone := retryAux_one oracle (.bulk HANTEK_EP_IN) P attempts retryFuel s
      (by rw [h00.1]; decide) hatt hrf
    have hbt : bulkTransfer oracle HANTEK_EP_IN P attempts retryFuel s
        = some (((P : Nat) : Int),
            { s with idx := s.idx + 1,
                     events := s.events ++ [TransferEvent.bulk HANTEK_EP_IN] }) := by
      simp [bulkTransfer, hh, hone, h00.1, h00.2]
      intro he
      exact absurd he (by decide)
    simp only [hbt]
    have hpos : (0 : Int) < ((P : Nat) : Int) := by exact_mod_cast hP
    rw [if_pos hpos]
    have hfin : received + ((P : Nat) : Int).toNat = received + P := by omega
    rw [hfin]
    rw [ih f (received + P)
      { s with idx := s.idx + 1,
               events := s.events ++ [TransferEvent.bulk HANTEK_EP_IN] }
      hh
      (by
        intro j hj
        have e : s.idx + 1 + j = s.idx + (j + 1) := by omega
        simpa [e] using hfk (j + 1) (by omega))
      (by omega)
      (by omega)]
    have hB : received + P + k * P = received + (k + 1) * P := by omega
    have hidx : s.idx + 1 + k = s.idx + (k + 1) := by omega
    have hev : (s.events ++ [TransferEvent.bulk HANTEK_EP_IN])
          ++ List.replicate k (TransferEvent.bulk HANTEK_EP_IN)
        = s.events ++ List.replicate (k + 1) (TransferEvent.bulk HANTEK_EP_IN) := by
      rw [List.append_assoc, List.singleton_append, ← List.replicate_succ]
    simp [hB, hidx, hev]

/-- The packet loop stops at a transfer that errors or comes back short of
the packet size, logging that one transfer and keeping the byte count
accumulated so far. -/
theorem bulkReadMultiAux_stop (oracle : Oracle) (L : Nat) (attempts : Int)
    (P retryFuel : Nat) (hP : 0 < P)
    (hatt : (0 : Int) < attempts ∨ attempts = -1) (hrf : 0 < retryFuel)
    (fuel received : Nat) (s : USBDevice) (hh : s.handle = true)
    (hrec : received < L) (hPle : P ≤ L - received)
    (hnt : (oracle s.idx P).code ≠ LIBUSB_ERROR_TIMEOUT) (hfuel : 0 < fuel) :
    ((oracle s.idx P).code < 0 →
      ∃ s1, bulkReadMultiAux oracle L attempts P retryFuel fuel received (P : Int) s
          = some ((oracle s.idx P).code, received, s1) ∧
        s1.events = s.events ++ [TransferEvent.bulk HANTEK_EP_IN]) ∧
    ((oracle s.idx P).code = 0 → (oracle s.idx P).transferred < P →
      ∃ s1, bulkReadMultiAux oracle L attempts P retryFuel fuel received (P : Int) s
          = some (((oracle s.idx P).transferred : Int),
              received + (oracle s.idx P).transferred, s1) ∧
        s1.events = s.events ++ [TransferEvent.bulk HANTEK_EP_IN]) := by
  obtain ⟨f, rfl⟩ : ∃ f, fuel = f + 1 := ⟨fuel - 1, by omega⟩
  have hreq : min (L - received) P = P := Nat.min_eq_right hPle
  obtain ⟨s1, hbt, hev⟩ := bulkTransfer_one_value oracle HANTEK_EP_IN P attempts
    retryFuel s hh hnt hatt hrf
  constructor
  · intro hcode
    refine ⟨s1, ?_, hev⟩
    rw [bulkReadMultiAux.eq_def]
    rw [if_pos ⟨hrec, rfl⟩]
    rw [hreq]
    rw [if_pos hcode] at hbt
    simp only [hbt]
    rw [if_neg (by omega)]
    rw [bulkReadMultiAux.eq_def]
    rw [if_neg (by
      intro hcon
      have h2 := hcon.2
      omega)]
  · intro hcode hshort
    refine ⟨s1, ?_, hev⟩
    rw [bulkReadMultiAux.eq_def]
    rw [if_pos ⟨hrec, rfl⟩]
    rw [hreq]
    rw [if_neg (by omega)] at hbt
    simp only [hbt]
    have hrecv : (if 0 < ((oracle s.idx P).transferred : Int) then
        received + ((oracle s.idx P).transferred : Int).toNat else received)
        = received + (oracle s.idx P).transferred := by
      split <;> omega
    rw [hrecv]
    rw [bulkReadMultiAux.eq_def]
    rw [if_neg (by
      intro hcon
      have h2 := hcon.2
      omega)]

/-- A successful speed query: one control-in transfer, returning the first
response byte. -/
theorem getConnectionSpeedOp_ok (oracle : Oracle) (fuel : Nat) (s : USBDevice)
    (hh : s.handle = true) (hsp : 0 ≤ (oracle s.idx 10).code) (hfuel : 0 < fuel) :
    getConnectionSpeedOp oracle fuel s
      = some (((oracle s.idx 10).data0 : Int),
          { s with idx := s.idx + 1,
                   events := s.events ++ [TransferEvent.control
                     (LIBUSB_REQUEST_TYPE_VENDOR + LIBUSB_ENDPOINT_IN)
                     CONTROL_GETSPEED] }) := by
  have hnt : (oracle s.idx 10).code ≠ LIBUSB_ERROR_TIMEOUT := by
    intro hc
    rw [hc] at hsp
    exact absurd hsp (by decide)
  have hnd : ¬((oracle s.idx 10).code = LIBUSB_ERROR_NO_DEVICE) := by
    intro hc
    rw [hc] at hsp
    exact absurd hsp (by decide)
  have hct := controlTransfer_one oracle (LIBUSB_REQUEST_TYPE_VENDOR + LIBUSB_ENDPOINT_IN)
    CONTROL_GETSPEED 10 HANTEK_ATTEMPTS_DEFAULT fuel s hh hnt (by left; decide) hfuel
  have hlt : ¬((oracle s.idx 10).code < 0) := by omega
  simp [getConnectionSpeedOp, controlRead, hh, hct, hnd, hlt]

/-- C6 (amended): with a positive IN packet size P, bulkReadMulti with
total length L issues one speed-query control read and then
ceil(L/P) bulk-in transfers, each requesting min(remaining, P) bytes, and
returns exactly L bytes when the device supplies every request in full and
L is positive; it stops at the first bulk transfer that errors or returns
fewer bytes than requested and then returns the accumulated byte count
when positive, otherwise that last result; for L = 0 it issues no bulk
transfer at all and returns the IN packet length rather than 0. -/
theorem c6_bulk_read_multi :
    (∀ (oracle : Oracle) (L : Nat) (attempts : Int) (fuel : Nat) (s : USBDevice),
      s.handle = true → 0 < s.inPacketLength → 0 < L →
      (∀ i l, (oracle i l).code = 0 ∧ (oracle i l).transferred = l) →
      ((0 : Int) < attempts ∨ attempts = -1) → 0 < fuel →
      (L + s.inPacketLength - 1) / s.inPacketLength ≤ fuel →
      ∃ s1, bulkReadMulti oracle L attempts fuel s = some ((L : Int), s1) ∧
        s1.events = s.events ++ TransferEvent.control
            (LIBUSB_REQUEST_TYPE_VENDOR + LIBUSB_ENDPOINT_IN) CONTROL_GETSPEED
          :: List.replicate ((L + s.inPacketLength - 1) / s.inPacketLength)
            (TransferEvent.bulk HANTEK_EP_IN) ∧
        s1.idx = s.idx + 1 + (L + s.inPacketLength - 1) / s.inPacketLength) ∧
    (∀ (oracle : Oracle) (L : Nat) (attempts : Int) (fuel : Nat) (s : USBDevice)
        (k : Nat), s.handle = true → 0 < s.inPacketLength →
      0 ≤ (oracle s.idx 10).code →
      (∀ j, j < k → (oracle (s.idx + 1 + j) s.inPacketLength).code = 0 ∧
        (oracle (s.idx + 1 + j) s.inPacketLength).transferred = s.inPacketLength) →
      k * s.inPacketLength + s.inPacketLength ≤ L →
      (oracle (s.idx + 1 + k) s.inPacketLength).code < 0 →
      (oracle (s.idx + 1 + k) s.inPacketLength).code ≠ LIBUSB_ERROR_TIMEOUT →
      ((0 : Int) < attempts ∨ attempts = -1) → k < fuel →
      ∃ s1, bulkReadMulti oracle L attempts fuel s
          = some ((if 0 < k * s.inPacketLength then ((k * s.inPacketLength : Nat) : Int)
              else (oracle (s.idx + 1 + k) s.inPacketLength).code), s1) ∧
        s1.events = s.events ++ TransferEvent.control
            (LIBUSB_REQUEST_TYPE_VENDOR + LIBUSB_ENDPOINT_IN) CONTROL_GETSPEED
          :: List.replicate (k + 1) (TransferEvent.bulk HANTEK_EP_IN)) ∧
    (∀ (oracle : Oracle) (L : Nat) (attempts : Int) (fuel : Nat) (s : USBDevice)
        (k : Nat), s.handle = true → 0 < s.inPacketLength →
      0 ≤ (oracle s.idx 10).code →
      (∀ j, j < k → (oracle (s.idx + 1 + j) s.inPacketLength).code = 0 ∧
        (oracle (s.idx + 1 + j) s.inPacketLength).transferred = s.inPacketLength) →
      k * s.inPacketLength + s.inPacketLength ≤ L →
      (oracle (s.idx + 1 + k) s.inPacketLength).code = 0 →
      (oracle (s.idx + 1 + k) s.inPacketLength).transferred < s.inPacketLength →
      ((0 : Int) < attempts ∨ attempts = -1) → k < fuel →
      ∃ s1, bulkReadMulti oracle L attempts fuel s
          = some (((k * s.inPacketLength
              + (oracle (s.idx + 1 + k) s.inPacketLength).transferred : Nat) : Int), s1) ∧
        s1.events = s.events ++ TransferEvent.control
            (LIBUSB_REQUEST_TYPE_VENDOR + LIBUSB_ENDPOINT_IN) CONTROL_GETSPEED
          :: List.replicate (k + 1) (TransferEvent.bulk HANTEK_EP_IN)) ∧
    (∀ (oracle : Oracle) (attempts : Int) (fuel : Nat) (s : USBDevice),
      s.handle = true → 0 ≤ (oracle s.idx 10).code → 0 < fuel →
      ∃ s1, bulkReadMulti oracle 0 attempts fuel s
          = some ((s.inPacketLength : Int), s1) ∧
        s1.events = s.events ++ [TransferEvent.control
          (LIBUSB_REQUEST_TYPE_VENDOR + LIBUSB_ENDPOINT_IN) CONTROL_GETSPEED]) := by
  refine ⟨?_, ?_, ?_, ?_⟩
  · intro oracle L attempts fuel s hh hP hL hfull hatt hfuel hbound

    have hsp : 0 ≤ (oracle s.idx 10).code := by rw [(hfull s.idx 10).1]
    have hgs := getConnectionSpeedOp_ok oracle fuel s hh hsp hfuel
    obtain ⟨e, haux⟩ := bulkReadMultiAux_full oracle L attempts s.inPacketLength fuel
      hP hatt hfuel hfull fuel 0
      { s with idx := s.idx + 1,
               events := s.events ++ [TransferEvent.control
                 (LIBUSB_REQUEST_TYPE_VENDOR + LIBUSB_ENDPOINT_IN) CONTROL_GETSPEED] }
      hh hL (by simpa using hbound)
    have hd0 : ¬(((oracle s.idx 10).data0 : Int) < 0) := by omega
    have heval : bulkReadMulti oracle L attempts fuel s
        = some ((L : Int),
            { s with idx := s.idx + 1 + (L + s.inPacketLength - 1) / s.inPacketLength,
                     events := s.events ++ TransferEvent.control
                         (LIBUSB_REQUEST_TYPE_VENDOR + LIBUSB_ENDPOINT_IN) CONTROL_GETSPEED
                       :: List.replicate ((L + s.inPacketLength - 1) / s.inPacketLength)
                         (TransferEvent.bulk HANTEK_EP_IN) }) := by
      simp only [hh] at haux
      simp only [bulkReadMulti, hh, if_true, hgs]
      simp only [hd0, if_false, reduceIte]
      rw [haux]
      simp only [hL, if_pos]
      simp [List.append_assoc]
    exact ⟨_, heval, rfl, rfl⟩
  · intro oracle L attempts fuel s k hh hP hsp hfk hbound hcode hnt hatt hkf

    have hfuel : 0 < fuel := by omega
    have hgs := getConnectionSpeedOp_ok oracle fuel s hh hsp hfuel
    have hd0 : ¬(((oracle s.idx 10).data0 : Int) < 0) := by omega
    have hskip := bulkReadMultiAux_skip oracle L attempts s.inPacketLength fuel hP hatt
      hfuel k fuel 0
      { s with idx := s.idx + 1,
               events := s.events ++ [TransferEvent.control
                 (LIBUSB_REQUEST_TYPE_VENDOR + LIBUSB_ENDPOINT_IN) CONTROL_GETSPEED] }
      hh (fun j hj => hfk j hj) (by omega) (by omega)
    have hstop := bulkReadMultiAux_stop oracle L attempts s.inPacketLength fuel hP hatt
      hfuel (fuel - k) (0 + k * s.inPacketLength)
      { { s with idx := s.idx + 1,
                 events := s.events ++ [TransferEvent.control
                   (LIBUSB_REQUEST_TYPE_VENDOR + LIBUSB_ENDPOINT_IN) CONTROL_GETSPEED] }
        with
          idx := s.idx + 1 + k,
          events := (s.events ++ [TransferEvent.control
              (LIBUSB_REQUEST_TYPE_VENDOR + LIBUSB_ENDPOINT_IN) CONTROL_GETSPEED])
            ++ List.replicate k (TransferEvent.bulk HANTEK_EP_IN) }
      hh (by omega) (by omega) hnt (by omega)
    obtain ⟨s2, heq, hev⟩ := hstop.1 hcode
    have heval : bulkReadMulti oracle L attempts fuel s
        = some ((if 0 < k * s.inPacketLength then ((k * s.inPacketLength : Nat) : Int)
            else (oracle (s.idx + 1 + k) s.inPacketLength).code), s2) := by
      simp only [hh] at hskip heq
      simp only [bulkReadMulti, hh, if_true, hgs]
      simp only [hd0, if_false, reduceIte]
      rw [hskip]
      rw [heq]
      simp only [Nat.zero_add]
      by_cases hk : 0 < k * s.inPacketLength
      · simp [hk]
      · simp [hk]
    refine ⟨s2, heval, ?_⟩
    rw [hev]
    simp [List.append_assoc, List.replicate_succ']
  · intro oracle L attempts fuel s k hh hP hsp hfk hbound hcode hshort hatt hkf

    have hfuel : 0 < fuel := by omega
    have hgs := getConnectionSpeedOp_ok oracle fuel s hh hsp hfuel
    have hd0 : ¬(((oracle s.idx 10).data0 : Int) < 0) := by omega
    have hskip := bulkReadMultiAux_skip oracle L attempts s.inPacketLength fuel hP hatt
      hfuel k fuel 0
      { s with idx := s.idx + 1,
               events := s.events ++ [TransferEvent.control
                 (LIBUSB_REQUEST_TYPE_VENDOR + LIBUSB_ENDPOINT_IN) CONTROL_GETSPEED] }
      hh (fun j hj => hfk j hj) (by omega) (by omega)
    have hstop := bulkReadMultiAux_stop oracle L attempts s.inPacketLength fuel hP hatt
      hfuel (fuel - k) (0 + k * s.inPacketLength)
      { { s with idx := s.idx + 1,
                 events := s.events ++ [TransferEvent.control
                   (LIBUSB_REQUEST_TYPE_VENDOR + LIBUSB_ENDPOINT_IN) CONTROL_GETSPEED] }
        with
          idx := s.idx + 1 + k,
          events := (s.events ++ [TransferEvent.control
              (LIBUSB_REQUEST_TYPE_VENDOR + LIBUSB_ENDPOINT_IN) CONTROL_GETSPEED])
            ++ List.replicate k (TransferEvent.bulk HANTEK_EP_IN) }
      hh (by omega) (by omega) (by rw [hcode]; decide) (by omega)
    obtain ⟨s2, heq, hev⟩ := hstop.2 hcode hshort
    have heval : bulkReadMulti oracle L attempts fuel s
        = some (((k * s.inPacketLength
            + (oracle (s.idx + 1 + k) s.inPacketLength).transferred : Nat) : Int), s2) := by
      simp only [hh] at hskip heq
      simp only [bulkReadMulti, hh, if_true, hgs]
      simp only [hd0, if_false, reduceIte]
      rw [hskip]
      rw [heq]
      simp only [Nat.zero_add]
      by_cases hk : 0 < k * s.inPacketLength
          + (oracle (s.idx + 1 + k) s.inPacketLength).transferred
      · simp [hk]
      · have ht : (oracle (s.idx + 1 + k) s.inPacketLength).transferred = 0 := by omega
        have hkz : k * s.inPacketLength = 0 := by omega
        simp [hk, ht, hkz]
    refine ⟨s2, heval, ?_⟩
    rw [hev]
    simp [List.append_assoc, List.replicate_succ']
  · intro oracle attempts fuel s hh hsp hfuel

    have hgs := getConnectionSpeedOp_ok oracle fuel s hh hsp hfuel
    have hd0 : ¬(((oracle s.idx 10).data0 : Int) < 0) := by omega
    have heval : bulkReadMulti oracle 0 attempts fuel s
        = some ((s.inPacketLength : Int),
            { s with idx := s.idx + 1,
                     events := s.events ++ [TransferEvent.control
                       (LIBUSB_REQUEST_TYPE_VENDOR + LIBUSB_ENDPOINT_IN)
                       CONTROL_GETSPEED] }) := by
      simp only [bulkReadMulti, hh, if_true, hgs]
      simp only [hd0, if_false, reduceIte]
      rw [bulkReadMultiAux.eq_def]
      rw [if_neg (fun hcon => absurd hcon.1 (Nat.lt_irrefl 0))]
      simp
    exact ⟨_, heval, rfl⟩

/-- Witness for C6: reading 1400 bytes with 512-byte IN packets issues one
speed query and three bulk-in transfers and returns 1400 bytes. -/
theorem c6_bulk_read_multi_witness :
    ∃ s1, bulkReadMulti oracleOk 1400 1 9 session0 = some ((1400 : Int), s1) ∧
      s1.events = session0.events ++ TransferEvent.control
          (LIBUSB_REQUEST_TYPE_VENDOR + LIBUSB_ENDPOINT_IN) CONTROL_GETSPEED
        :: List.replicate ((1400 + session0.inPacketLength - 1) / session0.inPacketLength)
          (TransferEvent.bulk HANTEK_EP_IN) ∧
      s1.idx = session0.idx + 1
        + (1400 + session0.inPacketLength - 1) / session0.inPacketLength :=
  c6_bulk_read_multi.1 oracleOk 1400 1 9 session0 rfl (by decide) (by decide)
    (fun i l => ⟨rfl, rfl⟩) (Or.inl (by decide)) (by decide) (by decide)

/-- Counterexample for C6: with total length L = 0 the loop never runs and
bulkReadMulti returns the IN packet length (512), not L = 0 bytes, so
"when the device supplies all packets in full it returns exactly L bytes"
fails at L = 0. -/
theorem c6_counterexample :
    bulkReadMulti oracleOk 0 1 5 session0
      = some ((512 : Int),
          { session0 with
              idx := 1,
              events := [TransferEvent.control
                (LIBUSB_REQUEST_TYPE_VENDOR + LIBUSB_ENDPOINT_IN) CONTROL_GETSPEED] }) ∧
    (512 : Int) ≠ ((0 : Nat) : Int) := by decide


/-- The interface scan claims successfully only when the claim result is
non-negative and some interface's first altsetting is vendor-specific with
exactly two endpoints. -/
theorem connectScan_success (env : UsbEnv) :
    ∀ (l : List UsbInterface) (s : USBDevice),
      (connectScan env s l).1 = LIBUSB_SUCCESS →
      0 ≤ env.claimResult ∧ ∃ i ∈ l, ∃ a0 rest, i.altsettings = a0 :: rest ∧
        a0.bInterfaceClass = LIBUSB_CLASS_VENDOR_SPEC ∧ a0.bInterfaceSubClass = 0 ∧
        a0.bInterfaceProtocol = 0 ∧ a0.endpoints.length = 2 := by
  intro l
  induction l with
  | nil =>
    intro s h
    simp [connectScan, LIBUSB_ERROR_NOT_FOUND, LIBUSB_SUCCESS] at h
  | cons i rest ih =>
    intro s h
    cases hast : i.altsettings with
    | nil =>
      simp only [connectScan, hast] at h
      obtain ⟨hc, i', hi', hrest⟩ := ih s h
      exact ⟨hc, i', List.mem_cons_of_mem i hi', hrest⟩
    | cons a0 as =>
      simp only [connectScan, hast] at h
      by_cases hm : a0.bInterfaceClass = LIBUSB_CLASS_VENDOR_SPEC ∧
          a0.bInterfaceSubClass = 0 ∧ a0.bInterfaceProtocol = 0 ∧
          a0.endpoints.length = 2
      · rw [if_pos hm] at h
        by_cases hcl : env.claimResult < 0
        · simp [claimInterface, hcl, LIBUSB_SUCCESS] at h
          omega
        · exact ⟨by omega, i, List.mem_cons_self i rest, a0, as, hast,
            hm.1, hm.2.1, hm.2.2.1, hm.2.2.2⟩
      · rw [if_neg hm] at h
        obtain ⟨hc, i', hi', hrest⟩ := ih s h
        exact ⟨hc, i', List.mem_cons_of_mem i hi', hrest⟩

/-- C8 (amended): connectDevice fails when the device's vendor or product
ID differs from the model's (needsFirmware); when the session is already
connected it returns success immediately without touching the bus; when
not connected it fails if the open fails, succeeds only when a
vendor-specific interface with exactly two endpoints is found and claimed,
and on the standard two-endpoint layout records both maximum packet
sizes. -/
theorem c8_connect :
    (∀ (env : UsbEnv) (descriptor : DeviceDescriptor) (model : DSOModel)
        (s : USBDevice), needsFirmware descriptor model = true →
      connectDevice env descriptor model s = (false, s)) ∧
    (∀ (env : UsbEnv) (descriptor : DeviceDescriptor) (model : DSOModel)
        (s : USBDevice), needsFirmware descriptor model = false → s.handle = true →
      connectDevice env descriptor model s = (true, s)) ∧
    (∀ (env : UsbEnv) (descriptor : DeviceDescriptor) (model : DSOModel)
        (s : USBDevice), needsFirmware descriptor model = false → s.handle = false →
      env.openResult ≠ LIBUSB_SUCCESS →
      connectDevice env descriptor model s = (false, s)) ∧
    (∀ (env : UsbEnv) (descriptor : DeviceDescriptor) (model : DSOModel)
        (s : USBDevice), needsFirmware descriptor model = false → s.handle = false →
      (connectDevice env descriptor model s).1 = true →
      env.openResult = LIBUSB_SUCCESS ∧ 0 ≤ env.claimResult ∧
      ∃ i ∈ env.config.interfaces, ∃ a0 rest, i.altsettings = a0 :: rest ∧
        a0.bInterfaceClass = LIBUSB_CLASS_VENDOR_SPEC ∧ a0.bInterfaceSubClass = 0 ∧
        a0.bInterfaceProtocol = 0 ∧ a0.endpoints.length = 2) ∧
    (∀ (env : UsbEnv) (descriptor : DeviceDescriptor) (model : DSOModel)
        (s : USBDevice) (n po pi : Nat) (restAlt : List InterfaceDescriptor)
        (restIf : List UsbInterface),
      needsFirmware descriptor model = false → s.handle = false →
      env.openResult = LIBUSB_SUCCESS → ¬(env.claimResult < 0) →
      env.config.interfaces = (⟨(⟨n, LIBUSB_CLASS_VENDOR_SPEC, 0, 0,
          [⟨HANTEK_EP_OUT, po⟩, ⟨HANTEK_EP_IN, pi⟩]⟩ : InterfaceDescriptor)
        :: restAlt⟩ : UsbInterface) :: restIf →
      connectDevice env descriptor model s
        = (true, { s with handle := true, claimedInterface := ((n : Nat) : Int),
                          outPacketLength := po, inPacketLength := pi })) := by
  refine ⟨?_, ?_, ?_, ?_, ?_⟩
  · intro env descriptor model s hnf
    simp [connectDevice, hnf]
  · intro env descriptor model s hnf hh
    simp [connectDevice, hnf, hh]
  · intro env descriptor model s hnf hh hopen
    simp [connectDevice, hnf, hh, hopen]
  · intro env descriptor model s hnf hh hres
    by_cases hopen : env.openResult = LIBUSB_SUCCESS
    · refine ⟨hopen, ?_⟩
      have hscan : (connectScan env { s with handle := true }
          env.config.interfaces).1 = LIBUSB_SUCCESS := by
        by_contra hne
        simp [connectDevice, hnf, hh, hopen, hne] at hres
      exact connectScan_success env env.config.interfaces { s with handle := true } hscan
    · simp [connectDevice, hnf, hh, hopen] at hres
  · intro env descriptor model s n po pi restAlt restIf hnf hh hopen hclaim hcfg
    simp [connectDevice, connectScan, claimInterface, hnf, hh, hopen, hclaim, hcfg,
      HANTEK_EP_OUT, HANTEK_EP_IN, LIBUSB_SUCCESS]

/-- Witness for C8: a disconnected session connecting to a configuration
whose single interface is vendor-specific with the two Hantek endpoints
succeeds and records both 64-byte maximum packet sizes. -/
theorem c8_connect_witness :
    connectDevice ⟨LIBUSB_SUCCESS, ⟨[⟨[⟨0, LIBUSB_CLASS_VENDOR_SPEC, 0, 0,
          [⟨HANTEK_EP_OUT, 64⟩, ⟨HANTEK_EP_IN, 64⟩]⟩]⟩]⟩, 0⟩
      ⟨0x04b5, 0x2250⟩ ⟨0x04b5, 0x2250⟩ { session0 with handle := false }
      = (true, { { session0 with handle := false } with
          handle := true, claimedInterface := ((0 : Nat) : Int),
          outPacketLength := 64, inPacketLength := 64 }) :=
  c8_connect.2.2.2.2 ⟨LIBUSB_SUCCESS, ⟨[⟨[⟨0, LIBUSB_CLASS_VENDOR_SPEC, 0, 0,
      [⟨HANTEK_EP_OUT, 64⟩, ⟨HANTEK_EP_IN, 64⟩]⟩]⟩]⟩, 0⟩
    ⟨0x04b5, 0x2250⟩ ⟨0x04b5, 0x2250⟩ { session0 with handle := false }
    0 64 64 [] [] (by decide) rfl rfl (by decide) rfl

/-- Counterexample for C8: on an already-connected session connectDevice
returns success immediately (even with an environment in which both open
and claim would fail), instead of failing with AlreadyOpen as the claim
states. -/
theorem c8_counterexample :
    connectDevice ⟨-1, ⟨[]⟩, -1⟩ ⟨0x04b5, 0x2250⟩ ⟨0x04b5, 0x2250⟩ session0
      = (true, session0) ∧
    session0.handle = true := by decide
